/-
  Verification development for the EPANET-MSX core toolkit configuration API.

  Shallow embedding of:
    - src/MSX Core/src/coretoolkit.c   (the MSXadd*/MSXset*/MSXget* toolkit calls)
    - src/Legacy DLL/src/msxproj.c     (MSXproj_addObject/findObject, deleteObjects)

  Modelling conventions:
    * C `double`/`float` values are modelled by `ℚ`: the configuration layer
      only copies these values (no arithmetic is performed on them), so an
      exact value type captures the "bit-identical copy" semantics.
    * C arrays indexed 1..N (slot 0 reserved) are modelled as total functions
      `Int → α` together with the `Nobjects` counters, mirroring the source,
      which keeps the count separately from the (realloc-grown) array.
    * `calloc` produces the all-zero array (`fun _ => default`); `realloc`
      preserves the function and the new slot keeps its previous (junk) value
      until the source writes it, exactly as in C.
    * Allocation failure (`ERR_MEMORY` paths / `addObject` returning -1) is
      not modelled: in the model every allocation succeeds, so those branches
      of the source are unreachable and are omitted.
    * Heap pointers to expression trees are modelled by `MathExpr.ptr : ℕ`,
      drawn from a per-project allocation counter `nextPtr`; C pointer
      equality is equality of `ptr` (with NULL modelled as `none`).
-/
import Mathlib

namespace EpanetMSX

/-- Values of C `double`/`float` variables; the modelled code only copies
them, so an exact field works and copying is bit-identical. -/
abbrev Val := ℚ

/-! ## Object-type codes

Modelled from the spec: the `ObjectType` enum lives in `msxtypes.h`, which is
not under `src/`; the spec (§6) fixes `NODE=0`, `LINK=1` as ABI and the enum
order `NODE, LINK, TANK, SPECIES, TERM, PARAMETER, CONSTANT, PATTERN` is the
standard EPANET-MSX declaration order.  Only distinctness of the codes is used
by any claim. -/

def NODE : Int := 0
def LINK : Int := 1
def TANK : Int := 2
def SPECIES : Int := 3
def TERM : Int := 4
def PARAMETER : Int := 5
def CONSTANT : Int := 6
def PATTERN : Int := 7

/-- Species kinds, ABI-fixed by the spec (§6): BULK=0. -/
def BULK : Int := 0
/-- Species kinds, ABI-fixed by the spec (§6): WALL=1. -/
def WALL : Int := 1

/-- Expression roles; `NO_EXPR` is the zero/default member of the
`ExpressionType` enum (species are created with no expression). -/
def NO_EXPR : Int := 0

/-- Species-units codes used by `MSXaddSpecies` (enum `MG, UG, MOLE, MMOLE`
from the header not under `src/`; only distinctness matters). -/
def MG : Int := 0
def UG : Int := 1
def MOLE : Int := 2
def MMOLE : Int := 3

/-- Source-type codes, ABI-fixed by the spec (§6). -/
def MSX_NOSOURCE : Int := -1
def MSX_CONCEN : Int := 0
def MSX_MASS : Int := 1
def MSX_SETPOINT : Int := 2
def MSX_FLOWPACED : Int := 3

/-! ## Option-type codes

Modelled from the spec (§6): the `OptionType` enum is declared in a header
not under `src/`; the eight members appear in the source's switch in the
order below.  Only distinctness is used. -/

def AREA_UNITS_OPTION : Int := 0
def RATE_UNITS_OPTION : Int := 1
def SOLVER_OPTION : Int := 2
def COUPLING_OPTION : Int := 3
def TIMESTEP_OPTION : Int := 4
def RTOL_OPTION : Int := 5
def ATOL_OPTION : Int := 6
def COMPILER_OPTION : Int := 7

/-! ## Error codes

Modelled from the spec (§7): the numeric values are declared in `msxtypes.h`,
which is not under `src/`.  Values 501..524 follow the `Errmsg` table in
`src/Legacy DLL/src/msxproj.c`; the newer toolkit codes (Keyword, Number,
Name, DuplicateExpression) are given fresh distinct values.  No claim depends
on the numeric values, only on 0 = success and distinctness. -/

def ERR_MEMORY : Int := 501
def ERR_INVALID_OBJECT_TYPE : Int := 515
def ERR_INVALID_OBJECT_INDEX : Int := 516
def ERR_UNDEFINED_OBJECT_ID : Int := 517
def ERR_INVALID_OBJECT_PARAMS : Int := 518
def ERR_MSX_NOT_OPENED : Int := 519
def ERR_ALREADY_OPENED : Int := 520
def ERR_MATH_EXPR : Int := 524
def ERR_KEYWORD : Int := 525
def ERR_NUMBER : Int := 526
def ERR_NAME : Int := 527
def ERR_DUP_EXPR : Int := 528

/-! ## Data model (struct S* from msxtypes.h, as used by the source) -/

/-- A node of a mathematical expression tree.  Modelled from the spec (§4.1):
`mathexpr.c` is not under `src/`; the toolkit code only needs the heap
identity of a tree (`ptr`, for the pointer-equality check at teardown) and
the root variable index `ivar` (read by `MSXaddTerm`'s renumbering loop). -/
structure MathExpr where
  ptr : ℕ
  ivar : Int
deriving DecidableEq

/-- A water-quality source attached to a node (struct Ssource; the `next`
pointers become the list order, head = most recently created). -/
structure Ssource where
  type : Int
  species : Int
  c0 : Val
  pat : Int
deriving DecidableEq

/-- struct Snode. -/
structure Snode where
  id : String
  tank : Int
  rpt : Int
  sources : List Ssource
  c : Int → Val
  c0 : Int → Val

instance : Inhabited Snode :=
  ⟨{ id := "", tank := 0, rpt := 0, sources := [], c := fun _ => 0, c0 := fun _ => 0 }⟩

/-- struct Slink. -/
structure Slink where
  id : String
  n1 : Int
  n2 : Int
  diam : Val
  len : Val
  roughness : Val
  rpt : Int
  param : Int → Val
  c0 : Int → Val
  reacted : Int → Val

instance : Inhabited Slink :=
  ⟨{ id := "", n1 := 0, n2 := 0, diam := 0, len := 0, roughness := 0, rpt := 0,
     param := fun _ => 0, c0 := fun _ => 0, reacted := fun _ => 0 }⟩

/-- struct Stank. -/
structure Stank where
  id : String
  node : Int
  a : Val
  v0 : Val
  mixModel : Int
  vMix : Val
  param : Int → Val
  c : Int → Val
  reacted : Int → Val

instance : Inhabited Stank :=
  ⟨{ id := "", node := 0, a := 0, v0 := 0, mixModel := 0, vMix := 0,
     param := fun _ => 0, c := fun _ => 0, reacted := fun _ => 0 }⟩

/-- struct Sspecies.  The expression fields are nullable pointers
(`Option MathExpr`, `none` = NULL). -/
structure Sspecies where
  id : String
  type : Int
  units : String
  aTol : Val
  rTol : Val
  pipeExpr : Option MathExpr
  tankExpr : Option MathExpr
  pipeExprType : Int
  tankExprType : Int
  precision : Int
  rpt : Int
deriving DecidableEq

instance : Inhabited Sspecies :=
  ⟨{ id := "", type := 0, units := "", aTol := 0, rTol := 0, pipeExpr := none,
     tankExpr := none, pipeExprType := 0, tankExprType := 0, precision := 0, rpt := 0 }⟩

/-- struct Sterm. -/
structure Sterm where
  id : String
  equation : String
  expr : Option MathExpr
deriving DecidableEq

instance : Inhabited Sterm := ⟨{ id := "", equation := "", expr := none }⟩

/-- struct Sconst. -/
structure Sconst where
  id : String
  value : Val
deriving DecidableEq

instance : Inhabited Sconst := ⟨{ id := "", value := 0 }⟩

/-- struct Sparam (the default value; per-pipe/per-tank overrides live in the
`param` arrays of Slink/Stank). -/
structure Sparam where
  id : String
  value : Val
deriving DecidableEq

instance : Inhabited Sparam := ⟨{ id := "", value := 0 }⟩

/-- struct Spattern.  The singly linked multiplier list (`first`, with each
cell's `next`) is a `List Val`; the `current` cursor is the position of the
cell it points at (`none` = NULL). -/
structure Spattern where
  id : String
  length : Int
  first : List Val
  current : Option ℕ
  interval : Int
deriving DecidableEq

instance : Inhabited Spattern :=
  ⟨{ id := "", length := 0, first := [], current := none, interval := 0 }⟩

/-- The MSXproject data struct: the fields touched by the embedded toolkit
calls.  `Htable t` is the per-object-type name lookup table (id → index,
`-1` = not found, per `MSXproj_findObject`); `nextPtr` is the expression-heap
allocation counter (see `mathexpr_create`); `SimInited` mirrors whether the
quality simulation has been initialised (tracked by the quality module, which
is not under `src/`). -/
structure MSXproject where
  ProjectOpened : Bool
  QualityOpened : Bool
  SimInited : Bool
  Nobjects : Int → Int
  Htable : Int → String → Int
  Node : Int → Snode
  Link : Int → Slink
  Tank : Int → Stank
  Species : Int → Sspecies
  Term : Int → Sterm
  Const : Int → Sconst
  Param : Int → Sparam
  Pattern : Int → Spattern
  C0 : Int → Val
  D : Int → Val
  H : Int → Val
  Q : Int → Val
  AreaUnits : Int
  RateUnits : Int
  Solver : Int
  Coupling : Int
  Compiler : Int
  Qstep : Int
  DefRtol : Val
  DefAtol : Val
  RptFileName : String
  PageSize : Int
  nextPtr : ℕ

/-! ## Name lookup and shared helpers -/

/-- `MSXproj_findObject` (src/Legacy DLL/src/msxproj.c): hash-table lookup,
index of the object or -1 when absent. -/
def findObject (s : MSXproject) (t : Int) (id : String) : Int :=
  s.Htable t id

/-- `MSXproj_addObject` (src/Legacy DLL/src/msxproj.c): does nothing when the
id is already present, otherwise inserts id ↦ n.  The source returns 0, 1 or
-1 (-1 only on allocation failure, which the model does not have), and every
caller only tests `< 0`, so the model returns just the updated project. -/
def addObject (s : MSXproject) (t : Int) (id : String) (n : Int) : MSXproject :=
  if 0 < findObject s t id then s
  else { s with Htable := fun t2 id2 => if t2 = t ∧ id2 = id then n else s.Htable t2 id2 }

/-- `MSXproj_findID` (src/Legacy DLL/src/msxproj.c): returns the stored copy
of the id string. -/
def findID (_s : MSXproject) (_t : Int) (id : String) : String := id

/-- Modelled from the spec: `checkID` lives in `msxobjects.c`, which is not
under `src/`; per §7 it is the *Name*-level validation of an object id.  The
model rejects ids containing a space, double quote, or semicolon. -/
def checkID (id : String) : Int :=
  if id.data.any (fun ch => ch = ' ' || ch = '\"' || ch = ';') then ERR_NAME else 0

/-- Modelled from the spec: `MSXutils_findmatch` (msxutils.c, not under
`src/`) matches a value against a keyword list, returning its 0-based index
or -1. -/
def MSXutils_findmatch (value : String) (words : List String) : Int :=
  match words.findIdx? (fun w => w = value) with
  | some k => Int.ofNat k
  | none => -1

/-- Modelled from the spec: `MSXutils_match` (msxutils.c, not under `src/`)
tests a keyword match. -/
def MSXutils_match (a b : String) : Bool := a = b

/-- Modelled from the spec: C `atoi`, parsing a leading integer and
returning 0 when the string does not parse. -/
def atoiModel (v : String) : Int := (v.toInt?).getD 0

/-- Modelled from the spec: `MSXutils_getDouble` (msxutils.c, not under
`src/`); parses a (possibly signed) decimal number, `none` on failure.  The
claims only distinguish parse success from failure. -/
def MSXutils_getDouble (v : String) : Option Val :=
  match v.toInt? with
  | some n => some (n : ℚ)
  | none =>
    match v.splitOn "." with
    | [a, b] =>
      match a.toInt?, b.toNat? with
      | some ia, some nb =>
        if b.isEmpty then none
        else if a.startsWith "-" then some ((ia : ℚ) - (nb : ℚ) / ((10 : ℚ) ^ b.length))
        else some ((ia : ℚ) + (nb : ℚ) / ((10 : ℚ) ^ b.length))
      | _, _ => none
    | _ => none

/-- Modelled from the spec: `MSXutils_getInt` (msxutils.c, not under
`src/`); parses an integer, `none` on failure. -/
def MSXutils_getInt (v : String) : Option Int := v.toInt?

/-- Modelled from the spec (§4/§6): the option keyword lists from
`msxdict.h` (not under `src/`).  Area units. -/
def AreaUnitsWords : List String := ["FT2", "M2", "CM2"]
/-- Modelled from the spec: rate time-unit keywords. -/
def TimeUnitsWords : List String := ["SEC", "MIN", "HR", "DAY"]
/-- Modelled from the spec (§6 ABI: EUL=0, RK5=1, ROS2=2): solver keywords. -/
def SolverTypeWords : List String := ["EUL", "RK5", "ROS2"]
/-- Modelled from the spec (§6 ABI: NONE=0, FULL=1): coupling keywords. -/
def CouplingWords : List String := ["NONE", "FULL"]
/-- Modelled from the spec: chemistry-compiler keywords. -/
def CompilerWords : List String := ["NONE", "VC", "GC"]
/-- Modelled from the spec: report-section keywords used by `MSXsetReport`. -/
def ReportWords : List String := ["NODE", "LINK", "SPECIES", "FILE", "PAGESIZE"]

/-- Modelled from the spec (§4.1): `mathexpr_create` (mathexpr.c, not under
`src/`) builds an expression tree from an infix string, NULL on a parse
error.  The model allocates a fresh heap identity on success and fails
exactly on the empty string (*MathExpr* error); the callers only depend on
success/failure and on the allocated identity. -/
def mathexpr_create (s : MSXproject) (equation : String) : Option MathExpr × MSXproject :=
  if equation = "" then (none, s)
  else (some { ptr := s.nextPtr, ivar := -1 }, { s with nextPtr := s.nextPtr + 1 })

/-- Zero entries 1..n of an array, keeping the rest (the realloc-then-zero
loops of `MSXaddSpecies`). -/
def zeroUpTo (n : Int) (f : Int → Val) : Int → Val :=
  fun j => if 1 ≤ j ∧ j ≤ n then 0 else f j

/-! ## Toolkit calls: topology and chemistry construction
(src/MSX Core/src/coretoolkit.c) -/

/-- `MSXaddNode` (coretoolkit.c:159).  Guard, duplicate check, id check,
hash registration, then (calloc when the array is created, realloc
otherwise) append the node and bump the count. -/
def MSXaddNode (s : MSXproject) (id : String) : Int × MSXproject :=
  if s.ProjectOpened = false ∨ s.QualityOpened = false then (ERR_MSX_NOT_OPENED, s)
  else if 1 ≤ findObject s NODE id then (ERR_INVALID_OBJECT_PARAMS, s)
  else if checkID id ≠ 0 then (checkID id, s)
  else
    let s1 := addObject s NODE id (s.Nobjects NODE + 1)
    let nNodes := s.Nobjects NODE + 1
    let base : Int → Snode := if nNodes = 1 then fun _ => default else s1.Node
    (0, { s1 with
          Node := fun k => if k = nNodes then
                    { base nNodes with rpt := 0, id := id, tank := 0, sources := [] }
                  else base k,
          Nobjects := fun t => if t = NODE then s1.Nobjects t + 1 else s1.Nobjects t })

/-- `MSXaddTank` (coretoolkit.c:202).  Registers the id as both a TANK and a
NODE, appends a tank entry with surface area `a = 1.0` and a backing node
entry, and bumps both counts. -/
def MSXaddTank (s : MSXproject) (id : String) (initialVolume : Val) (mixModel : Int)
    (volumeMix : Val) : Int × MSXproject :=
  if s.ProjectOpened = false ∨ s.QualityOpened = false then (ERR_MSX_NOT_OPENED, s)
  else if 1 ≤ findObject s TANK id then (ERR_INVALID_OBJECT_PARAMS, s)
  else if checkID id ≠ 0 then (checkID id, s)
  else
    let s1 := addObject s TANK id (s.Nobjects TANK + 1)
    let s2 := addObject s1 NODE id (s.Nobjects NODE + 1)
    let nTanks := s.Nobjects TANK + 1
    let nNodes := s.Nobjects NODE + 1
    let tankBase : Int → Stank := if nTanks = 1 then fun _ => default else s2.Tank
    let nodeBase : Int → Snode := if nNodes = 1 then fun _ => default else s2.Node
    (0, { s2 with
          Tank := fun k => if k = nTanks then
                    { tankBase nTanks with
                      a := 1
                      v0 := initialVolume
                      mixModel := mixModel
                      vMix := volumeMix
                      id := id
                      node := nNodes }
                  else tankBase k,
          Node := fun k => if k = nNodes then
                    { nodeBase nNodes with tank := nTanks, rpt := 0, id := id, sources := [] }
                  else nodeBase k,
          Nobjects := fun t => if t = NODE ∨ t = TANK then s2.Nobjects t + 1
                               else s2.Nobjects t })

/-- `MSXaddReservoir` (coretoolkit.c:264).  Identical to `MSXaddTank` except
that the tank entry's surface area is `a = 0.0`. -/
def MSXaddReservoir (s : MSXproject) (id : String) (initialVolume : Val) (mixModel : Int)
    (volumeMix : Val) : Int × MSXproject :=
  if s.ProjectOpened = false ∨ s.QualityOpened = false then (ERR_MSX_NOT_OPENED, s)
  else if 1 ≤ findObject s TANK id then (ERR_INVALID_OBJECT_PARAMS, s)
  else if checkID id ≠ 0 then (checkID id, s)
  else
    let s1 := addObject s TANK id (s.Nobjects TANK + 1)
    let s2 := addObject s1 NODE id (s.Nobjects NODE + 1)
    let nTanks := s.Nobjects TANK + 1
    let nNodes := s.Nobjects NODE + 1
    let tankBase : Int → Stank := if nTanks = 1 then fun _ => default else s2.Tank
    let nodeBase : Int → Snode := if nNodes = 1 then fun _ => default else s2.Node
    (0, { s2 with
          Tank := fun k => if k = nTanks then
                    { tankBase nTanks with
                      a := 0
                      v0 := initialVolume
                      mixModel := mixModel
                      vMix := volumeMix
                      id := id
                      node := nNodes }
                  else tankBase k,
          Node := fun k => if k = nNodes then
                    { nodeBase nNodes with tank := nTanks, rpt := 0, id := id, sources := [] }
                  else nodeBase k,
          Nobjects := fun t => if t = NODE ∨ t = TANK then s2.Nobjects t + 1
                               else s2.Nobjects t })

/-- `MSXaddLink` (coretoolkit.c:326).  Note the source order: the link id is
registered in the hash table *before* the start/end nodes are validated, so
the two `ERR_NAME` returns leave the id registered. -/
def MSXaddLink (s : MSXproject) (id startNode endNode : String) (length diameter roughness : Val) :
    Int × MSXproject :=
  if s.ProjectOpened = false ∨ s.QualityOpened = false then (ERR_MSX_NOT_OPENED, s)
  else if 1 ≤ findObject s LINK id then (ERR_INVALID_OBJECT_PARAMS, s)
  else if checkID id ≠ 0 then (checkID id, s)
  else
    let s1 := addObject s LINK id (s.Nobjects LINK + 1)
    if findObject s1 NODE startNode ≤ 0 then (ERR_NAME, s1)
    else if findObject s1 NODE endNode ≤ 0 then (ERR_NAME, s1)
    else
      let nLinks := s.Nobjects LINK + 1
      let base : Int → Slink := if nLinks = 1 then fun _ => default else s1.Link
      (0, { s1 with
            Link := fun k => if k = nLinks then
                      { base nLinks with
                        n1 := findObject s1 NODE startNode
                        n2 := findObject s1 NODE endNode
                        diam := diameter
                        len := length
                        roughness := roughness
                        rpt := 0
                        param := fun _ => 0
                        id := id }
                    else base k,
            Nobjects := fun t => if t = LINK then s1.Nobjects t + 1 else s1.Nobjects t })

/-- `MSXaddOption` (coretoolkit.c:383).  The `COMPILER_OPTION` case of the
source's switch has no `break` and falls through into `default`, so a valid
compiler keyword updates `Compiler` and then returns
`ERR_INVALID_OBJECT_TYPE`; the model reproduces that fall-through. -/
def MSXaddOption (s : MSXproject) (optionType : Int) (value : String) : Int × MSXproject :=
  if s.ProjectOpened = false ∨ s.QualityOpened = false then (ERR_MSX_NOT_OPENED, s)
  else if optionType = AREA_UNITS_OPTION then
    if MSXutils_findmatch value AreaUnitsWords < 0 then (ERR_KEYWORD, s)
    else (0, { s with AreaUnits := MSXutils_findmatch value AreaUnitsWords })
  else if optionType = RATE_UNITS_OPTION then
    if MSXutils_findmatch value TimeUnitsWords < 0 then (ERR_KEYWORD, s)
    else (0, { s with RateUnits := MSXutils_findmatch value TimeUnitsWords })
  else if optionType = SOLVER_OPTION then
    if MSXutils_findmatch value SolverTypeWords < 0 then (ERR_KEYWORD, s)
    else (0, { s with Solver := MSXutils_findmatch value SolverTypeWords })
  else if optionType = COUPLING_OPTION then
    if MSXutils_findmatch value CouplingWords < 0 then (ERR_KEYWORD, s)
    else (0, { s with Coupling := MSXutils_findmatch value CouplingWords })
  else if optionType = TIMESTEP_OPTION then
    if atoiModel value ≤ 0 then (ERR_NUMBER, s)
    else (0, { s with Qstep := atoiModel value })
  else if optionType = RTOL_OPTION then
    match MSXutils_getDouble value with
    | none => (ERR_NUMBER, s)
    | some d => (0, { s with DefRtol := d })
  else if optionType = ATOL_OPTION then
    match MSXutils_getDouble value with
    | none => (ERR_NUMBER, s)
    | some d => (0, { s with DefAtol := d })
  else if optionType = COMPILER_OPTION then
    if MSXutils_findmatch value CompilerWords < 0 then (ERR_KEYWORD, s)
    else (ERR_INVALID_OBJECT_TYPE, { s with Compiler := MSXutils_findmatch value CompilerWords })
  else (ERR_INVALID_OBJECT_TYPE, s)

/-- The units switch of `MSXaddSpecies`. -/
def speciesUnitsName (units : Int) : Option String :=
  if units = MG then some "MG"
  else if units = UG then some "UG"
  else if units = MOLE then some "MOLE"
  else if units = MMOLE then some "MMOLE"
  else none

/-- The state `MSXaddSpecies` has built by the time it reaches the units
switch: id registered (in `s1`), species array grown with the new slot's id
and kind written, and `C0` grown/zeroed.  The count is not yet
incremented. -/
def addSpeciesGrown (s1 : MSXproject) (id : String) (type nSpecies : Int) : MSXproject :=
  let base : Int → Sspecies := if nSpecies = 1 then fun _ => default else s1.Species
  { s1 with
    Species := fun k => if k = nSpecies then { base nSpecies with id := id, type := type }
                        else base k
    C0 := if nSpecies = 1 then (fun _ => 0) else zeroUpTo nSpecies s1.C0 }

/-- The successful tail of `MSXaddSpecies`: fill in the remaining species
attributes, bump the count, and grow (zeroing entries 1..n) the per-node,
per-tank and per-link concentration arrays. -/
def addSpeciesCore (s2 : MSXproject) (uname : String) (aTol rTol : Val)
    (nSpecies nNodes nTanks nLinks : Int) : MSXproject :=
  { s2 with
    Species := fun k => if k = nSpecies then
                 { (s2.Species nSpecies) with
                   units := uname
                   aTol := aTol
                   rTol := rTol
                   pipeExpr := none
                   tankExpr := none
                   pipeExprType := NO_EXPR
                   tankExprType := NO_EXPR
                   precision := 2
                   rpt := 0 }
               else s2.Species k
    Nobjects := fun t => if t = SPECIES then s2.Nobjects t + 1 else s2.Nobjects t
    Node := fun k => if 1 ≤ k ∧ k ≤ nNodes then
              { s2.Node k with
                c := if nSpecies = 1 then fun _ => 0 else zeroUpTo nSpecies (s2.Node k).c
                c0 := if nSpecies = 1 then fun _ => 0 else zeroUpTo nSpecies (s2.Node k).c0 }
            else s2.Node k
    Tank := fun k => if 1 ≤ k ∧ k ≤ nTanks then
              { s2.Tank k with
                c := if nSpecies = 1 then fun _ => 0 else zeroUpTo nSpecies (s2.Tank k).c
                reacted := if nSpecies = 1 then fun _ => 0
                           else zeroUpTo nSpecies (s2.Tank k).reacted }
            else s2.Tank k
    Link := fun k => if 1 ≤ k ∧ k ≤ nLinks then
              { s2.Link k with
                c0 := if nSpecies = 1 then fun _ => 0 else zeroUpTo nSpecies (s2.Link k).c0
                reacted := if nSpecies = 1 then fun _ => 0
                           else zeroUpTo nSpecies (s2.Link k).reacted }
            else s2.Link k }

/-- `MSXaddSpecies` (coretoolkit.c:457).  Note the source order: the species
kind is validated *before* the NotOpened guard, and the units keyword is
validated only after the id has been registered and the species/C0 arrays
grown (`addSpeciesGrown`), so an invalid units code returns `ERR_KEYWORD`
with that partial state retained (the count is not yet incremented). -/
def MSXaddSpecies (s : MSXproject) (id : String) (type units : Int) (aTol rTol : Val) :
    Int × MSXproject :=
  if ¬(type = BULK ∨ type = WALL) then (ERR_KEYWORD, s)
  else if s.ProjectOpened = false ∨ s.QualityOpened = false then (ERR_MSX_NOT_OPENED, s)
  else if 1 ≤ findObject s SPECIES id then (ERR_INVALID_OBJECT_PARAMS, s)
  else if checkID id ≠ 0 then (checkID id, s)
  else
    let s2 := addSpeciesGrown (addObject s SPECIES id (s.Nobjects SPECIES + 1)) id type
                (s.Nobjects SPECIES + 1)
    match speciesUnitsName units with
    | none => (ERR_KEYWORD, s2)
    | some uname =>
      (0, addSpeciesCore s2 uname aTol rTol (s.Nobjects SPECIES + 1) (s.Nobjects NODE)
            (s.Nobjects TANK) (s.Nobjects LINK))

/-- `MSXaddCoefficeint` (coretoolkit.c:588, sic).  Adds a PARAMETER or
CONSTANT coefficient.  Note that the source's duplicate check for a
parameter looks in the PATTERN hash table, as written. -/
def MSXaddCoefficeint (s : MSXproject) (type : Int) (id : String) (value : Val) :
    Int × MSXproject :=
  if s.ProjectOpened = false ∨ s.QualityOpened = false then (ERR_MSX_NOT_OPENED, s)
  else if type = PARAMETER then
    if 1 ≤ findObject s PATTERN id then (ERR_INVALID_OBJECT_PARAMS, s)
    else if checkID id ≠ 0 then (checkID id, s)
    else
      let s1 := addObject s PARAMETER id (s.Nobjects PARAMETER + 1)
      let nParams := s.Nobjects PARAMETER + 1
      let base : Int → Sparam := if nParams = 1 then fun _ => default else s1.Param
      let nTanks := s.Nobjects TANK
      let nLinks := s.Nobjects LINK
      (0, { s1 with
            Param := fun k => if k = nParams then { id := id, value := value } else base k,
            Nobjects := fun t => if t = PARAMETER then s1.Nobjects t + 1 else s1.Nobjects t,
            Tank := fun k => if 1 ≤ k ∧ k ≤ nTanks then
                      { s1.Tank k with
                        param := if nParams = 1 then fun _ => 0
                                 else zeroUpTo nParams (s1.Tank k).param }
                    else s1.Tank k,
            Link := fun k => if 1 ≤ k ∧ k ≤ nLinks then
                      { s1.Link k with
                        param := if nParams = 1 then fun _ => 0
                                 else zeroUpTo nParams (s1.Link k).param }
                    else s1.Link k })
  else if type = CONSTANT then
    if 1 ≤ findObject s CONSTANT id then (ERR_INVALID_OBJECT_PARAMS, s)
    else if checkID id ≠ 0 then (checkID id, s)
    else
      let s1 := addObject s CONSTANT id (s.Nobjects CONSTANT + 1)
      let nConsts := s.Nobjects CONSTANT + 1
      let base : Int → Sconst := if nConsts = 1 then fun _ => default else s1.Const
      (0, { s1 with
            Const := fun k => if k = nConsts then { id := id, value := value } else base k,
            Nobjects := fun t => if t = CONSTANT then s1.Nobjects t + 1 else s1.Nobjects t })
  else (ERR_KEYWORD, s)

/-- The ivar-renumbering applied to the older terms by `MSXaddTerm` (the
source dereferences `Term[m].expr` unconditionally; a NULL expression would
fault, modelled as a no-op). -/
def termIvarBump (nSpecies : Int) (t : Sterm) : Sterm :=
  match t.expr with
  | none => t
  | some e =>
    if e.ivar ≠ -1 ∧ e.ivar > nSpecies + 1 then { t with expr := some { e with ivar := e.ivar + 1 } }
    else t

/-- The state `MSXaddTerm` has built by the time it compiles the equation:
id registered (in `s1`), term array grown with the new slot's id written,
and `Nobjects[TERM]` already incremented. -/
def addTermGrown (s1 : MSXproject) (id : String) (nTerms : Int) : MSXproject :=
  let base : Int → Sterm := if nTerms = 1 then fun _ => default else s1.Term
  { s1 with
    Term := fun k => if k = nTerms then { base nTerms with id := id } else base k
    Nobjects := fun t => if t = TERM then s1.Nobjects t + 1 else s1.Nobjects t }

/-- The successful tail of `MSXaddTerm`: store the compiled expression and
apply the ivar renumbering to the older terms. -/
def addTermCore (s3 : MSXproject) (equation : String) (expr : MathExpr)
    (nTerms nSpecies : Int) : MSXproject :=
  { s3 with
    Term := fun k =>
      if k = nTerms then { s3.Term nTerms with expr := some expr, equation := equation }
      else if 1 ≤ k ∧ k < nTerms then termIvarBump nSpecies (s3.Term k)
      else s3.Term k }

/-- `MSXaddTerm` (coretoolkit.c:675).  Note the source order: the id is
registered, the term appended (its id written) and `Nobjects[TERM]`
incremented (`addTermGrown`) *before* the equation is compiled, so the
`ERR_MATH_EXPR` return leaves all of that state behind. -/
def MSXaddTerm (s : MSXproject) (id equation : String) : Int × MSXproject :=
  if s.ProjectOpened = false ∨ s.QualityOpened = false then (ERR_MSX_NOT_OPENED, s)
  else if 1 ≤ findObject s TERM id then (ERR_INVALID_OBJECT_PARAMS, s)
  else if checkID id ≠ 0 then (checkID id, s)
  else
    let s2 := addTermGrown (addObject s TERM id (s.Nobjects TERM + 1)) id
                (s.Nobjects TERM + 1)
    match mathexpr_create s2 equation with
    | (none, s3) => (ERR_MATH_EXPR, s3)
    | (some expr, s3) =>
      (0, addTermCore s3 equation expr (s.Nobjects TERM + 1) (s.Nobjects SPECIES))

/-- `MSXaddExpression` (coretoolkit.c:725).  Attaches a pipe (`LINK` class)
or tank (`TANK` class) expression of the given role to a species. -/
def MSXaddExpression (s : MSXproject) (classType expressionType : Int) (species equation : String) :
    Int × MSXproject :=
  if s.ProjectOpened = false ∨ s.QualityOpened = false then (ERR_MSX_NOT_OPENED, s)
  else if expressionType < 0 ∨ expressionType > 3 then (ERR_KEYWORD, s)
  else if findObject s SPECIES species < 1 then (ERR_NAME, s)
  else
    let i := findObject s SPECIES species
    if classType = LINK then
      if (s.Species i).pipeExprType ≠ NO_EXPR then (ERR_DUP_EXPR, s)
      else
        match mathexpr_create s equation with
        | (none, _) => (ERR_MATH_EXPR, s)
        | (some expr, s3) =>
          (0, { s3 with
                Species := fun k => if k = i then
                             { s3.Species i with
                               pipeExpr := some expr
                               pipeExprType := expressionType }
                           else s3.Species k })
    else if classType = TANK then
      if (s.Species i).tankExprType ≠ NO_EXPR then (ERR_DUP_EXPR, s)
      else
        match mathexpr_create s equation with
        | (none, _) => (ERR_MATH_EXPR, s)
        | (some expr, s3) =>
          (0, { s3 with
                Species := fun k => if k = i then
                             { s3.Species i with
                               tankExpr := some expr
                               tankExprType := expressionType }
                           else s3.Species k })
    else (ERR_INVALID_OBJECT_PARAMS, s)

/-- Replace the first source in the chain whose species matches (the
in-place update of the search loop in `MSXaddSource`/`MSXsetsource`). -/
def replaceFirstSrc (m type : Int) (c0 : Val) (pat : Int) : List Ssource → List Ssource
  | [] => []
  | x :: xs =>
    if x.species = m then { type := type, species := m, c0 := c0, pat := pat } :: xs
    else x :: replaceFirstSrc m type c0 pat xs

/-- The search/update/create of the node's source chain shared by
`MSXaddSource` and `MSXsetsource`: update the first existing source for the
species in place, otherwise prepend a new one. -/
def srcAssign (l : List Ssource) (m type : Int) (c0 : Val) (pat : Int) : List Ssource :=
  if l.any (fun x => x.species = m) then replaceFirstSrc m type c0 pat l
  else { type := type, species := m, c0 := c0, pat := pat } :: l

/-- `MSXaddSource` (coretoolkit.c:783).  A non-BULK species is silently
accepted (returns 0) without creating a source; the pattern id is looked up
without validation. -/
def MSXaddSource (s : MSXproject) (sourceType : Int) (nodeId speciesId : String)
    (strength : Val) (timePattern : String) : Int × MSXproject :=
  if s.ProjectOpened = false ∨ s.QualityOpened = false then (ERR_MSX_NOT_OPENED, s)
  else if sourceType < 0 ∨ sourceType > 3 then (ERR_KEYWORD, s)
  else if findObject s NODE nodeId ≤ 0 then (ERR_NAME, s)
  else if findObject s SPECIES speciesId ≤ 0 then (ERR_NAME, s)
  else
    let j := findObject s NODE nodeId
    let m := findObject s SPECIES speciesId
    if (s.Species m).type ≠ BULK then (0, s)
    else
      let pat := findObject s PATTERN timePattern
      (0, { s with
            Node := fun k => if k = j then
                      { s.Node j with sources := srcAssign (s.Node j).sources m sourceType strength pat }
                    else s.Node k })

/-- The scope classification at the top of `MSXaddQuality` (1 = GLOBAL,
2 = NODE, 3 = LINK, 0 = unknown keyword). -/
def qualityScope (type : String) : Int :=
  if MSXutils_match type "GLOBAL" then 1
  else if MSXutils_match type "NODE" then 2
  else if MSXutils_match type "LINK" then 3
  else 0

/-- The GLOBAL branch of `MSXaddQuality`: set `C0[m]`, the initial quality
of species m at every node (bulk species only) and every link. -/
def addQualityGlobal (s : MSXproject) (m : Int) (value : Val) : MSXproject :=
  { s with
    C0 := fun k => if k = m then value else s.C0 k
    Node := fun k => if ((s.Species m).type = BULK ∧ 1 ≤ k ∧ k ≤ s.Nobjects NODE) then
              { s.Node k with c0 := fun j => if j = m then value else (s.Node k).c0 j }
            else s.Node k
    Link := fun k => if 1 ≤ k ∧ k ≤ s.Nobjects LINK then
              { s.Link k with c0 := fun j => if j = m then value else (s.Link k).c0 j }
            else s.Link k }

/-- The NODE branch of `MSXaddQuality`: set node j's initial quality of
species m. -/
def addQualityNode (s : MSXproject) (j m : Int) (value : Val) : MSXproject :=
  { s with
    Node := fun k => if k = j then
              { s.Node j with c0 := fun l => if l = m then value else (s.Node j).c0 l }
            else s.Node k }

/-- The LINK branch of `MSXaddQuality`: set link j's initial quality of
species m. -/
def addQualityLink (s : MSXproject) (j m : Int) (value : Val) : MSXproject :=
  { s with
    Link := fun k => if k = j then
              { s.Link j with c0 := fun l => if l = m then value else (s.Link j).c0 l }
            else s.Link k }

/-- `MSXaddQuality` (coretoolkit.c:839).  Sets initial quality globally, for
one node, or for one link. -/
def MSXaddQuality (s : MSXproject) (type speciesId : String) (value : Val) (id : String) :
    Int × MSXproject :=
  if s.ProjectOpened = false ∨ s.QualityOpened = false then (ERR_MSX_NOT_OPENED, s)
  else if qualityScope type = 0 then (ERR_KEYWORD, s)
  else if findObject s SPECIES speciesId ≤ 0 then (ERR_NAME, s)
  else if qualityScope type = 1 then
    (0, addQualityGlobal s (findObject s SPECIES speciesId) value)
  else if qualityScope type = 2 then
    if findObject s NODE id ≤ 0 then (ERR_NAME, s)
    else if (s.Species (findObject s SPECIES speciesId)).type = BULK then
      (0, addQualityNode s (findObject s NODE id) (findObject s SPECIES speciesId) value)
    else (0, s)
  else
    if findObject s LINK id ≤ 0 then (ERR_NAME, s)
    else (0, addQualityLink s (findObject s LINK id) (findObject s SPECIES speciesId) value)

/-- The PIPE branch of `MSXaddParameter`: set link j's override for
parameter i. -/
def addParameterPipe (s : MSXproject) (j i : Int) (value : Val) : MSXproject :=
  { s with
    Link := fun k => if k = j then
              { s.Link j with param := fun l => if l = i then value else (s.Link j).param l }
            else s.Link k }

/-- The TANK branch of `MSXaddParameter`: set tank j's override for
parameter i. -/
def addParameterTank (s : MSXproject) (j i : Int) (value : Val) : MSXproject :=
  { s with
    Tank := fun k => if k = j then
              { s.Tank j with param := fun l => if l = i then value else (s.Tank j).param l }
            else s.Tank k }

/-- `MSXaddParameter` (coretoolkit.c:903).  The parameter index is looked up
without validation (as in the source); the TANK branch indexes the Node
array with the tank-table result, as written. -/
def MSXaddParameter (s : MSXproject) (type paramId : String) (value : Val) (id : String) :
    Int × MSXproject :=
  if s.ProjectOpened = false ∨ s.QualityOpened = false then (ERR_MSX_NOT_OPENED, s)
  else if MSXutils_match type "PIPE" then
    if findObject s LINK id ≤ 0 then (ERR_NAME, s)
    else (0, addParameterPipe s (findObject s LINK id) (findObject s PARAMETER paramId) value)
  else if MSXutils_match type "TANK" then
    if findObject s TANK id ≤ 0 then (ERR_NAME, s)
    else if 0 < (s.Node (findObject s TANK id)).tank then
      (0, addParameterTank s ((s.Node (findObject s TANK id)).tank)
            (findObject s PARAMETER paramId) value)
    else (0, s)
  else (ERR_KEYWORD, s)

/-- `MSXsetReport` (coretoolkit.c:949). -/
def MSXsetReport (s : MSXproject) (reportType id : String) (precision : Int) :
    Int × MSXproject :=
  if s.ProjectOpened = false ∨ s.QualityOpened = false then (ERR_MSX_NOT_OPENED, s)
  else
    let k := MSXutils_findmatch reportType ReportWords
    if k < 0 then (ERR_KEYWORD, s)
    else if k = 0 then
      if findObject s NODE id ≤ 0 then (ERR_NAME, s)
      else
        let j := findObject s NODE id
        (0, { s with Node := fun l => if l = j then { s.Node j with rpt := 1 } else s.Node l })
    else if k = 1 then
      if findObject s LINK id ≤ 0 then (ERR_NAME, s)
      else
        let j := findObject s LINK id
        (0, { s with Link := fun l => if l = j then { s.Link j with rpt := 1 } else s.Link l })
    else if k = 2 then
      if findObject s SPECIES id ≤ 0 then (ERR_NAME, s)
      else
        let j := findObject s SPECIES id
        (0, { s with
              Species := fun l => if l = j then
                           { s.Species j with
                             rpt := 1
                             precision := precision }
                         else s.Species l })
    else if k = 3 then (0, { s with RptFileName := id })
    else
      match MSXutils_getInt id with
      | none => (ERR_NUMBER, s)
      | some v => (0, { s with PageSize := v })

/-- `MSXsetHydraulics` (coretoolkit.c:1008).  Copies the caller's 0-based
demand/head arrays into the 1-based `D`/`H` slots 1..Nnodes and the flow
array into `Q` slots 1..Nlinks. -/
def MSXsetHydraulics (s : MSXproject) (demands heads flows : Int → Val) : Int × MSXproject :=
  if s.ProjectOpened = false ∨ s.QualityOpened = false then (ERR_MSX_NOT_OPENED, s)
  else
    (0, { s with
          D := fun i => if 1 ≤ i ∧ i ≤ s.Nobjects NODE then demands (i - 1) else s.D i
          H := fun i => if 1 ≤ i ∧ i ≤ s.Nobjects NODE then heads (i - 1) else s.H i
          Q := fun i => if 1 ≤ i ∧ i ≤ s.Nobjects LINK then flows (i - 1) else s.Q i })

/-! ## Toolkit calls: getters (src/MSX Core/src/coretoolkit.c) -/

/-- `MSXgetIDlen` (coretoolkit.c:1079).  Returns (error, length of the id of
the indexed object); the output is pre-set to 0. -/
def MSXgetIDlen (s : MSXproject) (type index : Int) : Int × Int :=
  if s.ProjectOpened = false then (ERR_MSX_NOT_OPENED, 0)
  else if ¬(type = SPECIES ∨ type = CONSTANT ∨ type = PARAMETER ∨ type = PATTERN) then
    (ERR_INVALID_OBJECT_TYPE, 0)
  else if index < 1 ∨ index > s.Nobjects type then (ERR_INVALID_OBJECT_INDEX, 0)
  else if type = SPECIES then (0, (s.Species index).id.length)
  else if type = CONSTANT then (0, (s.Const index).id.length)
  else if type = PARAMETER then (0, (s.Param index).id.length)
  else (0, (s.Pattern index).id.length)

/-- `MSXgetID` (coretoolkit.c:1121).  Returns (error, at most `len`
characters of the indexed object's id); the output is pre-set to "". -/
def MSXgetID (s : MSXproject) (type index len : Int) : Int × String :=
  if s.ProjectOpened = false then (ERR_MSX_NOT_OPENED, "")
  else if ¬(type = SPECIES ∨ type = CONSTANT ∨ type = PARAMETER ∨ type = PATTERN) then
    (ERR_INVALID_OBJECT_TYPE, "")
  else if index < 1 ∨ index > s.Nobjects type then (ERR_INVALID_OBJECT_INDEX, "")
  else if type = SPECIES then (0, (s.Species index).id.take len.toNat)
  else if type = CONSTANT then (0, (s.Const index).id.take len.toNat)
  else if type = PARAMETER then (0, (s.Param index).id.take len.toNat)
  else (0, (s.Pattern index).id.take len.toNat)

/-- `MSXgetcount` (coretoolkit.c:1165). -/
def MSXgetcount (s : MSXproject) (type : Int) : Int × Int :=
  if s.ProjectOpened = false then (ERR_MSX_NOT_OPENED, 0)
  else if type = SPECIES ∨ type = CONSTANT ∨ type = PARAMETER ∨ type = PATTERN then
    (0, s.Nobjects type)
  else (ERR_INVALID_OBJECT_TYPE, 0)

/-- `MSXgetconstant` (coretoolkit.c:1234).  Returns (error, constant value);
the output is pre-set to 0. -/
def MSXgetconstant (s : MSXproject) (index : Int) : Int × Val :=
  if s.ProjectOpened = false then (ERR_MSX_NOT_OPENED, 0)
  else if index < 1 ∨ index > s.Nobjects CONSTANT then (ERR_INVALID_OBJECT_INDEX, 0)
  else (0, (s.Const index).value)

/-- `MSXgetparameter` (coretoolkit.c:1259).  For a node, reads the tank
override when the node backs a tank (and leaves the 0 default otherwise);
for a link, reads the pipe override. -/
def MSXgetparameter (s : MSXproject) (type index param : Int) : Int × Val :=
  if s.ProjectOpened = false then (ERR_MSX_NOT_OPENED, 0)
  else if param < 1 ∨ param > s.Nobjects PARAMETER then (ERR_INVALID_OBJECT_INDEX, 0)
  else if type = NODE then
    if index < 1 ∨ index > s.Nobjects NODE then (ERR_INVALID_OBJECT_INDEX, 0)
    else if 0 < (s.Node index).tank then (0, (s.Tank ((s.Node index).tank)).param param)
    else (0, 0)
  else if type = LINK then
    if index < 1 ∨ index > s.Nobjects LINK then (ERR_INVALID_OBJECT_INDEX, 0)
    else (0, (s.Link index).param param)
  else (ERR_INVALID_OBJECT_TYPE, 0)

/-- `MSXgetpatternlen` (coretoolkit.c:1350). -/
def MSXgetpatternlen (s : MSXproject) (pat : Int) : Int × Int :=
  if s.ProjectOpened = false then (ERR_MSX_NOT_OPENED, 0)
  else if pat < 1 ∨ pat > s.Nobjects PATTERN then (ERR_INVALID_OBJECT_INDEX, 0)
  else (0, (s.Pattern pat).length)

/-- The multiplier-list walk of `MSXgetpatternvalue`: scan the cells with the
1-based counter `n`, returning the matching cell's position and value. -/
def patFind (l : List Val) (n period : Int) : Option (ℕ × Val) :=
  match l with
  | [] => none
  | v :: rest =>
    if n = period then some (0, v)
    else (patFind rest (n + 1) period).map (fun p => (p.1 + 1, p.2))

/-- `MSXgetpatternvalue` (coretoolkit.c:1375).  Returns
(error, multiplier, project): the walk moves the pattern's `current` cursor.
When `period > length` the walk is skipped and the call returns 0 with the
output left at its 0.0 default; an exhausted walk also returns 0. -/
def MSXgetpatternvalue (s : MSXproject) (pat period : Int) : Int × Val × MSXproject :=
  if s.ProjectOpened = false then (ERR_MSX_NOT_OPENED, 0, s)
  else if pat < 1 ∨ pat > s.Nobjects PATTERN then (ERR_INVALID_OBJECT_INDEX, 0, s)
  else if period ≤ (s.Pattern pat).length then
    match patFind (s.Pattern pat).first 1 period with
    | some pv =>
      (0, pv.2,
       { s with Pattern := fun k => if k = pat then { s.Pattern pat with current := some pv.1 }
                            else s.Pattern k })
    | none =>
      (0, 0,
       { s with Pattern := fun k => if k = pat then { s.Pattern pat with current := none }
                            else s.Pattern k })
  else (0, 0, s)

/-- `MSXgetinitqual` (coretoolkit.c:1417).  Returns (error, initial
concentration); the output is pre-set to 0. -/
def MSXgetinitqual (s : MSXproject) (type index species : Int) : Int × Val :=
  if s.ProjectOpened = false then (ERR_MSX_NOT_OPENED, 0)
  else if species < 1 ∨ species > s.Nobjects SPECIES then (ERR_INVALID_OBJECT_INDEX, 0)
  else if type = NODE then
    if index < 1 ∨ index > s.Nobjects NODE then (ERR_INVALID_OBJECT_INDEX, 0)
    else (0, (s.Node index).c0 species)
  else if type = LINK then
    if index < 1 ∨ index > s.Nobjects LINK then (ERR_INVALID_OBJECT_INDEX, 0)
    else (0, (s.Link index).c0 species)
  else (ERR_INVALID_OBJECT_TYPE, 0)

/-- Modelled from the spec (§6 polling getters): `MSXqual_getNodeQual` lives
in the quality engine, which is not under `src/`; it returns the node's
current concentration of the species and reports no error. -/
def MSXqual_getNodeQual (s : MSXproject) (j m : Int) : Val := (s.Node j).c m

/-- Modelled from the spec (§6 polling getters): `MSXqual_getLinkQual` lives
in the quality engine, which is not under `src/`; it returns the link's
current concentration of the species and reports no error. -/
def MSXqual_getLinkQual (s : MSXproject) (k m : Int) : Val := (s.Link k).c0 m

/-- `MSXgetQualityByIndex` (coretoolkit.c:1455).  Returns (error, current
concentration); the output is pre-set to 0. -/
def MSXgetQualityByIndex (s : MSXproject) (type index species : Int) : Int × Val :=
  if s.ProjectOpened = false then (ERR_MSX_NOT_OPENED, 0)
  else if species < 1 ∨ species > s.Nobjects SPECIES then (ERR_INVALID_OBJECT_INDEX, 0)
  else if type = NODE then
    if index < 1 ∨ index > s.Nobjects NODE then (ERR_INVALID_OBJECT_INDEX, 0)
    else (0, MSXqual_getNodeQual s index species)
  else if type = LINK then
    if index < 1 ∨ index > s.Nobjects LINK then (ERR_INVALID_OBJECT_INDEX, 0)
    else (0, MSXqual_getLinkQual s index species)
  else (ERR_INVALID_OBJECT_TYPE, 0)

/-! ## Toolkit calls: setters (src/MSX Core/src/coretoolkit.c) -/

/-- `MSXsetconstant` (coretoolkit.c:1542).  Guarded by `ProjectOpened`
only. -/
def MSXsetconstant (s : MSXproject) (index : Int) (value : Val) : Int × MSXproject :=
  if s.ProjectOpened = false then (ERR_MSX_NOT_OPENED, s)
  else if index < 1 ∨ index > s.Nobjects CONSTANT then (ERR_INVALID_OBJECT_INDEX, s)
  else
    (0, { s with Const := fun k => if k = index then { s.Const index with value := value }
                          else s.Const k })

/-- `MSXsetparameter` (coretoolkit.c:1567). -/
def MSXsetparameter (s : MSXproject) (type index param : Int) (value : Val) : Int × MSXproject :=
  if s.ProjectOpened = false then (ERR_MSX_NOT_OPENED, s)
  else if param < 1 ∨ param > s.Nobjects PARAMETER then (ERR_INVALID_OBJECT_INDEX, s)
  else if type = NODE then
    if index < 1 ∨ index > s.Nobjects NODE then (ERR_INVALID_OBJECT_INDEX, s)
    else
      let j := (s.Node index).tank
      if 0 < j then
        (0, { s with
              Tank := fun k => if k = j then
                        { s.Tank j with param := fun l => if l = param then value
                                                          else (s.Tank j).param l }
                      else s.Tank k })
      else (0, s)
  else if type = LINK then
    if index < 1 ∨ index > s.Nobjects LINK then (ERR_INVALID_OBJECT_INDEX, s)
    else
      (0, { s with
            Link := fun k => if k = index then
                      { s.Link index with param := fun l => if l = param then value
                                                            else (s.Link index).param l }
                    else s.Link k })
  else (ERR_INVALID_OBJECT_TYPE, s)

/-- `MSXsetinitqual` (coretoolkit.c:1607). -/
def MSXsetinitqual (s : MSXproject) (type index species : Int) (value : Val) : Int × MSXproject :=
  if s.ProjectOpened = false then (ERR_MSX_NOT_OPENED, s)
  else if species < 1 ∨ species > s.Nobjects SPECIES then (ERR_INVALID_OBJECT_INDEX, s)
  else if type = NODE then
    if index < 1 ∨ index > s.Nobjects NODE then (ERR_INVALID_OBJECT_INDEX, s)
    else if (s.Species species).type = BULK then
      (0, { s with
            Node := fun k => if k = index then
                      { s.Node index with c0 := fun l => if l = species then value
                                                         else (s.Node index).c0 l }
                    else s.Node k })
    else (0, s)
  else if type = LINK then
    if index < 1 ∨ index > s.Nobjects LINK then (ERR_INVALID_OBJECT_INDEX, s)
    else
      (0, { s with
            Link := fun k => if k = index then
                      { s.Link index with c0 := fun l => if l = species then value
                                                         else (s.Link index).c0 l }
                    else s.Link k })
  else (ERR_INVALID_OBJECT_TYPE, s)

/-- `MSXsetsource` (coretoolkit.c:1646). -/
def MSXsetsource (s : MSXproject) (node species type : Int) (level : Val) (pat : Int) :
    Int × MSXproject :=
  if s.ProjectOpened = false then (ERR_MSX_NOT_OPENED, s)
  else if node < 1 ∨ node > s.Nobjects NODE then (ERR_INVALID_OBJECT_INDEX, s)
  else if species < 1 ∨ species > s.Nobjects SPECIES then (ERR_INVALID_OBJECT_INDEX, s)
  else if pat > s.Nobjects PATTERN then (ERR_INVALID_OBJECT_INDEX, s)
  else
    let pat2 := if pat < 0 then 0 else pat
    if type < MSX_NOSOURCE ∨ type > MSX_FLOWPACED then (ERR_INVALID_OBJECT_PARAMS, s)
    else if (s.Species species).type ≠ BULK then (ERR_INVALID_OBJECT_PARAMS, s)
    else if level < 0 then (ERR_INVALID_OBJECT_PARAMS, s)
    else
      (0, { s with
            Node := fun k => if k = node then
                      { s.Node node with
                        sources := srcAssign (s.Node node).sources species type level pat2 }
                    else s.Node k })

/-- The multiplier-list walk of `MSXsetpatternvalue`: replace the matching
cell's value, also reporting the cursor position where the walk stopped. -/
def patSetWalk (l : List Val) (n period : Int) (value : Val) : List Val × Option ℕ :=
  match l with
  | [] => ([], none)
  | v :: rest =>
    if n = period then (value :: rest, some 0)
    else
      let r := patSetWalk rest (n + 1) period value
      (v :: r.1, r.2.map (fun p => p + 1))

/-- `MSXsetpatternvalue` (coretoolkit.c:1718).  A period outside
`1..length` is rejected with `ERR_INVALID_OBJECT_PARAMS`. -/
def MSXsetpatternvalue (s : MSXproject) (pat period : Int) (value : Val) : Int × MSXproject :=
  if s.ProjectOpened = false then (ERR_MSX_NOT_OPENED, s)
  else if pat < 1 ∨ pat > s.Nobjects PATTERN then (ERR_INVALID_OBJECT_INDEX, s)
  else if period ≤ 0 ∨ period > (s.Pattern pat).length then (ERR_INVALID_OBJECT_PARAMS, s)
  else
    let r := patSetWalk (s.Pattern pat).first 1 period value
    (0, { s with
          Pattern := fun k => if k = pat then
                       { s.Pattern pat with
                         first := r.1
                         current := r.2 }
                     else s.Pattern k })

/-- `MSXaddpattern` (coretoolkit.c:1765).  Guarded by `ProjectOpened` only.
The whole pattern array is copied into a freshly `calloc`ed one that only
carries over `id`, `length`, `first` and `current` (so every pattern's
`interval` is reset to 0), and the new empty pattern is appended. -/
def MSXaddpattern (s : MSXproject) (id : String) : Int × MSXproject :=
  if s.ProjectOpened = false then (ERR_MSX_NOT_OPENED, s)
  else if 1 ≤ findObject s PATTERN id then (ERR_INVALID_OBJECT_PARAMS, s)
  else
    let n := s.Nobjects PATTERN + 1
    let s1 := addObject s PATTERN id n
    (0, { s1 with
          Pattern := fun k =>
            if 1 ≤ k ∧ k ≤ s.Nobjects PATTERN then
              { id := (s.Pattern k).id
                length := (s.Pattern k).length
                first := (s.Pattern k).first
                current := (s.Pattern k).current
                interval := 0 }
            else if k = n then
              { id := findID s1 PATTERN id
                length := 0
                first := []
                current := none
                interval := 0 }
            else default,
          Nobjects := fun t => if t = PATTERN then s1.Nobjects t + 1 else s1.Nobjects t })

/-- `MSXsetpattern` (coretoolkit.c:1830).  Replaces the pattern's multiplier
list with the given array (a negative length is clamped to 0, which the list
argument models intrinsically), sets `length`, resets `interval` to 0 and
the cursor to the first cell. -/
def MSXsetpattern (s : MSXproject) (pat : Int) (mult : List Val) : Int × MSXproject :=
  if s.ProjectOpened = false then (ERR_MSX_NOT_OPENED, s)
  else if pat < 1 ∨ pat > s.Nobjects PATTERN then (ERR_INVALID_OBJECT_INDEX, s)
  else
    (0, { s with
          Pattern := fun k => if k = pat then
                       { s.Pattern pat with
                         first := mult
                         length := (mult.length : Int)
                         interval := 0
                         current := if mult.isEmpty then none else some 0 }
                     else s.Pattern k })

/-- Modelled from the spec (§4.7): `MSXqual_step` lives in the quality
driver, which is not under `src/`; stepping is rejected before the project
has been initialised and otherwise advances one quality step. -/
def MSXqual_step (s : MSXproject) : Int × MSXproject :=
  if s.SimInited = false then (ERR_MSX_NOT_OPENED, s) else (0, s)

/-- `MSXstep` (coretoolkit.c:1898): the NotOpened guard, then delegation to
the quality driver. -/
def MSXstep (s : MSXproject) : Int × MSXproject :=
  if s.ProjectOpened = false then (ERR_MSX_NOT_OPENED, s)
  else MSXqual_step s

/-! ## Project teardown: expression release (src/Legacy DLL/src/msxproj.c,
deleteObjects, lines 598-607 and 618-619) -/

/-- The C pointer held in a nullable expression field (NULL = `none`). -/
def exprPtr : Option MathExpr → Option ℕ
  | none => none
  | some e => some e.ptr

/-- `mathexpr_delete` viewed as the multiset of released trees, identified
by root address; `mathexpr_delete(NULL)` releases nothing. -/
def mathexprDelete : Option MathExpr → List ℕ
  | none => []
  | some e => [e.ptr]

/-- The per-species body of the expression-release loop of `deleteObjects`:
the tank expression is released only when its pointer differs from the pipe
expression's, and the pipe expression is always released. -/
def speciesExprDelete (sp : Sspecies) : List ℕ :=
  (if exprPtr sp.tankExpr ≠ exprPtr sp.pipeExpr then mathexprDelete sp.tankExpr else [])
    ++ mathexprDelete sp.pipeExpr

/-- The expression trees released by the species loop of `deleteObjects`
(`for i=1..Nobjects[SPECIES]`), in order. -/
def deleteObjectsSpeciesFrees (s : MSXproject) : List ℕ :=
  ((List.range (s.Nobjects SPECIES).toNat).map
    (fun k => speciesExprDelete (s.Species (Int.ofNat k + 1)))).flatten

/-- The expression trees owned by a species: its pipe expression and its
tank expression (per the spec's ownership model, §3). -/
def speciesOwnedPtrs (sp : Sspecies) : List ℕ :=
  (exprPtr sp.pipeExpr).toList ++ (exprPtr sp.tankExpr).toList

/-- The spec's ownership discipline (§3), as an executable check: distinct
species own disjoint expression trees (the one allowed aliasing relation is
within a single species, tank aliasing pipe). -/
def ownershipDisjointB (s : MSXproject) : Bool :=
  (List.range (s.Nobjects SPECIES).toNat).all fun k =>
    (List.range (s.Nobjects SPECIES).toNat).all fun k2 =>
      (k == k2) ||
        (speciesOwnedPtrs (s.Species (Int.ofNat k + 1))).all fun e =>
          !(decide (e ∈ speciesOwnedPtrs (s.Species (Int.ofNat k2 + 1))))

/-! ## The configured initial project -/

/-- Modelled from the spec (§4.7): a freshly opened project in the
configuration-admitting lifecycle state with no objects.  The scalar
defaults follow `setDefaults` (src/Legacy DLL/src/msxproj.c); `MSX_open`
sets `ProjectOpened`, and the quality module (not under `src/`) sets
`QualityOpened` when the project reaches the QualityOpen state. -/
def initProject : MSXproject :=
  { ProjectOpened := true
    QualityOpened := true
    SimInited := false
    Nobjects := fun _ => 0
    Htable := fun _ _ => -1
    Node := fun _ => default
    Link := fun _ => default
    Tank := fun _ => default
    Species := fun _ => default
    Term := fun _ => default
    Const := fun _ => default
    Param := fun _ => default
    Pattern := fun _ => default
    C0 := fun _ => 0
    D := fun _ => 0
    H := fun _ => 0
    Q := fun _ => 0
    AreaUnits := 0
    RateUnits := 3
    Solver := 0
    Coupling := 0
    Compiler := 0
    Qstep := 300
    DefRtol := 1 / 1000
    DefAtol := 1 / 100
    RptFileName := ""
    PageSize := 0
    nextPtr := 0 }

/-! ## The configuration calls as a single syntax (for claims quantifying
over every `add*`/`set*` operation) -/

/-- One configuration call of the toolkit: every `MSXadd*`/`MSXset*` entry
point of coretoolkit.c with its arguments. -/
inductive ConfigCall where
  | addNode (id : String)
  | addTank (id : String) (v0 : Val) (mixModel : Int) (vMix : Val)
  | addReservoir (id : String) (v0 : Val) (mixModel : Int) (vMix : Val)
  | addLink (id startNode endNode : String) (length diameter roughness : Val)
  | addOption (optionType : Int) (value : String)
  | addSpecies (id : String) (type units : Int) (aTol rTol : Val)
  | addCoefficeint (type : Int) (id : String) (value : Val)
  | addTerm (id equation : String)
  | addExpression (classType expressionType : Int) (species equation : String)
  | addSource (sourceType : Int) (nodeId speciesId : String) (strength : Val)
      (timePattern : String)
  | addQuality (type speciesId : String) (value : Val) (id : String)
  | addParameter (type paramId : String) (value : Val) (id : String)
  | addpattern (id : String)
  | setReport (reportType id : String) (precision : Int)
  | setHydraulics (demands heads flows : Int → Val)
  | setconstant (index : Int) (value : Val)
  | setparameter (type index param : Int) (value : Val)
  | setinitqual (type index species : Int) (value : Val)
  | setsource (node species type : Int) (level : Val) (pat : Int)
  | setpatternvalue (pat period : Int) (value : Val)
  | setpattern (pat : Int) (mult : List Val)

/-- Dispatch a configuration call to its embedded toolkit function. -/
def runConfig (s : MSXproject) : ConfigCall → Int × MSXproject
  | .addNode id => MSXaddNode s id
  | .addTank id v0 mm vm => MSXaddTank s id v0 mm vm
  | .addReservoir id v0 mm vm => MSXaddReservoir s id v0 mm vm
  | .addLink id sn en l d r => MSXaddLink s id sn en l d r
  | .addOption t v => MSXaddOption s t v
  | .addSpecies id ty u a r => MSXaddSpecies s id ty u a r
  | .addCoefficeint t id v => MSXaddCoefficeint s t id v
  | .addTerm id eq => MSXaddTerm s id eq
  | .addExpression ct et sp eq => MSXaddExpression s ct et sp eq
  | .addSource st n sp str tp => MSXaddSource s st n sp str tp
  | .addQuality ty sp v id => MSXaddQuality s ty sp v id
  | .addParameter ty p v id => MSXaddParameter s ty p v id
  | .addpattern id => MSXaddpattern s id
  | .setReport rt id p => MSXsetReport s rt id p
  | .setHydraulics d h f => MSXsetHydraulics s d h f
  | .setconstant i v => MSXsetconstant s i v
  | .setparameter t i p v => MSXsetparameter s t i p v
  | .setinitqual t i m v => MSXsetinitqual s t i m v
  | .setsource n m t l p => MSXsetsource s n m t l p
  | .setpatternvalue p per v => MSXsetpatternvalue s p per v
  | .setpattern p m => MSXsetpattern s p m

/-- The object-creating `add*` operations (the subject of the no-partial-
state policy: they append to an object array, bump a count, or register an
id). -/
def isObjectAdd : ConfigCall → Bool
  | .addNode _ => true
  | .addTank _ _ _ _ => true
  | .addReservoir _ _ _ _ => true
  | .addLink _ _ _ _ _ _ => true
  | .addSpecies _ _ _ _ _ => true
  | .addCoefficeint _ _ _ => true
  | .addTerm _ _ => true
  | .addExpression _ _ _ _ => true
  | .addSource _ _ _ _ _ => true
  | .addQuality _ _ _ _ => true
  | .addParameter _ _ _ _ => true
  | .addpattern _ => true
  | _ => false

/-- The error a configuration call returns when the project is not open:
`ERR_MSX_NOT_OPENED` for every call except `MSXaddSpecies`, which validates
its species kind before the lifecycle guard and so returns `ERR_KEYWORD` for
an invalid kind even on an unopened project. -/
def guardErr : ConfigCall → Int
  | .addSpecies _ ty _ _ _ => if ¬(ty = BULK ∨ ty = WALL) then ERR_KEYWORD
                              else ERR_MSX_NOT_OPENED
  | _ => ERR_MSX_NOT_OPENED

/-! ## Topology-construction sequences (for the node/tank consistency
invariant) -/

/-- One node-creating topology call. -/
inductive TopoOp where
  | node (id : String)
  | tank (id : String) (v0 : Val) (mixModel : Int) (vMix : Val)
  | reservoir (id : String) (v0 : Val) (mixModel : Int) (vMix : Val)

/-- Run one topology call. -/
def runTopoOp (s : MSXproject) : TopoOp → Int × MSXproject
  | .node id => MSXaddNode s id
  | .tank id v0 mm vm => MSXaddTank s id v0 mm vm
  | .reservoir id v0 mm vm => MSXaddReservoir s id v0 mm vm

/-- Run a sequence of topology calls, failing (`none`) as soon as one
returns a nonzero error; also collects the node indices created by the
`addNode` calls of the sequence. -/
def runTopoSeq (s : MSXproject) : List TopoOp → Option (MSXproject × List Int)
  | [] => some (s, [])
  | op :: rest =>
    let r := runTopoOp s op
    if r.1 ≠ 0 then none
    else
      match runTopoSeq r.2 rest with
      | none => none
      | some (sf, created) =>
        some (sf, (match op with
                   | .node _ => [r.2.Nobjects NODE]
                   | _ => []) ++ created)

/-- The node/tank cross-reference consistency invariant: every valid tank
index points at a valid backing node whose `tank` field points back at it. -/
def TankNodeConsistent (s : MSXproject) : Prop :=
  ∀ t : Int, 1 ≤ t → t ≤ s.Nobjects TANK →
    1 ≤ (s.Tank t).node ∧ (s.Tank t).node ≤ s.Nobjects NODE ∧
    (s.Node ((s.Tank t).node)).tank = t

/-! ## Concrete fixture states (used to instantiate the theorems) -/

/-- A project that has never been opened. -/
def wClosed : MSXproject := { initProject with ProjectOpened := false }

/-- An open project holding one node "A". -/
def wNodeA : MSXproject := (MSXaddNode initProject "A").2

/-- An open project with nodes "A","B" and link "P1" between them. -/
def wNet : MSXproject :=
  (MSXaddLink (MSXaddNode wNodeA "B").2 "P1" "A" "B" 1000 (3/10) 100).2

/-- An open project holding one empty pattern "P". -/
def wPat0 : MSXproject := (MSXaddpattern initProject "P").2

/-- `wPat0` after `setPattern(1, [5,7,9])`. -/
def wPat : MSXproject := (MSXsetpattern wPat0 1 [5, 7, 9]).2

/-- An open project with one constant "K" of value 42. -/
def wConst : MSXproject := (MSXaddCoefficeint initProject CONSTANT "K" 42).2

/-- A project with two species: species 1's tank expression aliases its pipe
expression (same heap address 5); species 2 owns two distinct trees (7, 9). -/
def wSpecExpr : MSXproject :=
  { initProject with
    Nobjects := fun t => if t = SPECIES then 2 else 0
    Species := fun k =>
      if k = 1 then
        { (default : Sspecies) with
          pipeExpr := some { ptr := 5, ivar := -1 }
          tankExpr := some { ptr := 5, ivar := -1 } }
      else if k = 2 then
        { (default : Sspecies) with
          pipeExpr := some { ptr := 7, ivar := -1 }
          tankExpr := some { ptr := 9, ivar := -1 } }
      else default }

/-- The result of a concrete successful topology sequence. -/
def wTopoRes : MSXproject × List Int :=
  (runTopoSeq initProject
    [TopoOp.node "A", TopoOp.tank "T1" 100 0 50, TopoOp.reservoir "R1" 10 0 5]).getD
    (initProject, [])

/-! ## The 1-based-index getters as a single syntax -/

/-- One call of an index-taking getter of coretoolkit.c. -/
inductive GetterCall where
  | idlen (type index : Int)
  | gid (type index len : Int)
  | getconst (index : Int)
  | getparam (type index param : Int)
  | initqual (type index species : Int)
  | qualByIdx (type index species : Int)
  | patlen (pat : Int)

/-- The error code returned by a getter call. -/
def runGetterErr (s : MSXproject) : GetterCall → Int
  | .idlen t i => (MSXgetIDlen s t i).1
  | .gid t i l => (MSXgetID s t i l).1
  | .getconst i => (MSXgetconstant s i).1
  | .getparam t i p => (MSXgetparameter s t i p).1
  | .initqual t i m => (MSXgetinitqual s t i m).1
  | .qualByIdx t i m => (MSXgetQualityByIndex s t i m).1
  | .patlen p => (MSXgetpatternlen s p).1

/-- The getter's object-type argument is one of the types it accepts. -/
def getterValidType : GetterCall → Prop
  | .idlen t _ => t = SPECIES ∨ t = CONSTANT ∨ t = PARAMETER ∨ t = PATTERN
  | .gid t _ _ => t = SPECIES ∨ t = CONSTANT ∨ t = PARAMETER ∨ t = PATTERN
  | .getconst _ => True
  | .getparam t _ _ => t = NODE ∨ t = LINK
  | .initqual t _ _ => t = NODE ∨ t = LINK
  | .qualByIdx t _ _ => t = NODE ∨ t = LINK
  | .patlen _ => True

/-- Some 1-based object-index argument of the call lies outside
`1..Nobjects[type]` for its object type. -/
def getterIdxOut (s : MSXproject) : GetterCall → Prop
  | .idlen t i => i < 1 ∨ i > s.Nobjects t
  | .gid t i _ => i < 1 ∨ i > s.Nobjects t
  | .getconst i => i < 1 ∨ i > s.Nobjects CONSTANT
  | .getparam t i p => (p < 1 ∨ p > s.Nobjects PARAMETER) ∨ (i < 1 ∨ i > s.Nobjects t)
  | .initqual t i m => (m < 1 ∨ m > s.Nobjects SPECIES) ∨ (i < 1 ∨ i > s.Nobjects t)
  | .qualByIdx t i m => (m < 1 ∨ m > s.Nobjects SPECIES) ∨ (i < 1 ∨ i > s.Nobjects t)
  | .patlen p => p < 1 ∨ p > s.Nobjects PATTERN

/-- The getter's output is still its pre-set default (0 / the empty
string), i.e. no object slot was read. -/
def getterDefaultOut (s : MSXproject) : GetterCall → Prop
  | .idlen t i => (MSXgetIDlen s t i).2 = 0
  | .gid t i l => (MSXgetID s t i l).2 = ""
  | .getconst i => (MSXgetconstant s i).2 = 0
  | .getparam t i p => (MSXgetparameter s t i p).2 = 0
  | .initqual t i m => (MSXgetinitqual s t i m).2 = 0
  | .qualByIdx t i m => (MSXgetQualityByIndex s t i m).2 = 0
  | .patlen p => (MSXgetpatternlen s p).2 = 0

/-! ## Helper lemmas -/

theorem addObject_Nobjects (s : MSXproject) (t : Int) (id : String) (n : Int) :
    (addObject s t id n).Nobjects = s.Nobjects := by
  unfold addObject; split <;> rfl

theorem addObject_Node (s : MSXproject) (t : Int) (id : String) (n : Int) :
    (addObject s t id n).Node = s.Node := by
  unfold addObject; split <;> rfl

theorem addObject_Tank (s : MSXproject) (t : Int) (id : String) (n : Int) :
    (addObject s t id n).Tank = s.Tank := by
  unfold addObject; split <;> rfl

theorem addObject_Link (s : MSXproject) (t : Int) (id : String) (n : Int) :
    (addObject s t id n).Link = s.Link := by
  unfold addObject; split <;> rfl

theorem addObject_Species (s : MSXproject) (t : Int) (id : String) (n : Int) :
    (addObject s t id n).Species = s.Species := by
  unfold addObject; split <;> rfl

theorem addObject_Term (s : MSXproject) (t : Int) (id : String) (n : Int) :
    (addObject s t id n).Term = s.Term := by
  unfold addObject; split <;> rfl

theorem addObject_C0 (s : MSXproject) (t : Int) (id : String) (n : Int) :
    (addObject s t id n).C0 = s.C0 := by
  unfold addObject; split <;> rfl

theorem addObject_Pattern (s : MSXproject) (t : Int) (id : String) (n : Int) :
    (addObject s t id n).Pattern = s.Pattern := by
  unfold addObject; split <;> rfl

theorem addObject_ProjectOpened (s : MSXproject) (t : Int) (id : String) (n : Int) :
    (addObject s t id n).ProjectOpened = s.ProjectOpened := by
  unfold addObject; split <;> rfl

theorem addObject_eq_htable_update (s : MSXproject) (t : Int) (id : String) (n : Int) :
    addObject s t id n = { s with Htable := (addObject s t id n).Htable } := by
  unfold addObject; split <;> rfl

theorem findObject_flag (s : MSXproject) (b : Bool) (t : Int) (id : String) :
    findObject { s with SimInited := b } t id = findObject s t id := rfl

theorem addObject_flag (s : MSXproject) (b : Bool) (t : Int) (id : String) (n : Int) :
    addObject { s with SimInited := b } t id n
      = { addObject s t id n with SimInited := b } := by
  unfold addObject
  by_cases h : 0 < findObject s t id
  · rw [if_pos (show (0:Int) < findObject { s with SimInited := b } t id from h), if_pos h]
  · rw [if_neg (show ¬(0:Int) < findObject { s with SimInited := b } t id from h), if_neg h]

theorem addTermGrown_flag (s1 : MSXproject) (b : Bool) (id : String) (n : Int) :
    addTermGrown { s1 with SimInited := b } id n
      = { addTermGrown s1 id n with SimInited := b } := rfl

theorem mathexpr_create_flag (s : MSXproject) (b : Bool) (eqn : String) :
    mathexpr_create { s with SimInited := b } eqn
      = ((mathexpr_create s eqn).1, { (mathexpr_create s eqn).2 with SimInited := b }) := by
  unfold mathexpr_create
  by_cases h : eqn = ""
  · rw [if_pos h, if_pos h]
  · rw [if_neg h, if_neg h]

theorem checkID_ne (id : String) : checkID id ≠ ERR_MSX_NOT_OPENED := by
  unfold checkID
  split_ifs <;> norm_num [ERR_NAME, ERR_MSX_NOT_OPENED]

set_option maxHeartbeats 2000000 in
theorem runConfig_flag (s : MSXproject) (b : Bool) (c : ConfigCall) :
    runConfig { s with SimInited := b } c
      = ((runConfig s c).1, { (runConfig s c).2 with SimInited := b }) := by
  cases c
  case addNode id =>
    simp only [runConfig, MSXaddNode, findObject_flag, addObject_flag]
    split_ifs <;> rfl
  case addTank id v0 mm vm =>
    simp only [runConfig, MSXaddTank, findObject_flag, addObject_flag]
    split_ifs <;> rfl
  case addReservoir id v0 mm vm =>
    simp only [runConfig, MSXaddReservoir, findObject_flag, addObject_flag]
    split_ifs <;> rfl
  case addLink id sn en l d r =>
    simp only [runConfig, MSXaddLink, findObject_flag, addObject_flag]
    split_ifs <;> rfl
  case addOption t v =>
    simp only [runConfig, MSXaddOption]
    by_cases hg : s.ProjectOpened = false ∨ s.QualityOpened = false
    · rw [if_pos hg, if_pos hg]
    rw [if_neg hg, if_neg hg]
    by_cases h0 : t = AREA_UNITS_OPTION
    · rw [if_pos h0, if_pos h0]
      split_ifs <;> rfl
    rw [if_neg h0, if_neg h0]
    by_cases h1 : t = RATE_UNITS_OPTION
    · rw [if_pos h1, if_pos h1]
      split_ifs <;> rfl
    rw [if_neg h1, if_neg h1]
    by_cases h2 : t = SOLVER_OPTION
    · rw [if_pos h2, if_pos h2]
      split_ifs <;> rfl
    rw [if_neg h2, if_neg h2]
    by_cases h3 : t = COUPLING_OPTION
    · rw [if_pos h3, if_pos h3]
      split_ifs <;> rfl
    rw [if_neg h3, if_neg h3]
    by_cases h4 : t = TIMESTEP_OPTION
    · rw [if_pos h4, if_pos h4]
      split_ifs <;> rfl
    rw [if_neg h4, if_neg h4]
    by_cases h5 : t = RTOL_OPTION
    · rw [if_pos h5, if_pos h5]
      rcases hd : MSXutils_getDouble v with _ | d <;> rfl
    rw [if_neg h5, if_neg h5]
    by_cases h6 : t = ATOL_OPTION
    · rw [if_pos h6, if_pos h6]
      rcases hd : MSXutils_getDouble v with _ | d <;> rfl
    rw [if_neg h6, if_neg h6]
    split_ifs <;> rfl
  case addSpecies id ty u a r =>
    simp only [runConfig, MSXaddSpecies, findObject_flag, addObject_flag]
    rcases hu : speciesUnitsName u with _ | uname <;> split_ifs <;> rfl
  case addCoefficeint t id v =>
    simp only [runConfig, MSXaddCoefficeint, findObject_flag, addObject_flag]
    split_ifs <;> rfl
  case addTerm id eqn =>
    simp only [runConfig, MSXaddTerm, findObject_flag, addObject_flag, addTermGrown_flag,
      mathexpr_create_flag]
    rcases hm : mathexpr_create (addTermGrown (addObject s TERM id (s.Nobjects TERM + 1)) id
        (s.Nobjects TERM + 1)) eqn with ⟨e1, s3⟩
    rcases e1 with _ | ex <;> split_ifs <;> rfl
  case addExpression ct et sp eqn =>
    simp only [runConfig, MSXaddExpression, findObject_flag, mathexpr_create_flag]
    rcases hm : mathexpr_create s eqn with ⟨e1, s3⟩
    rcases e1 with _ | ex <;> split_ifs <;> rfl
  case addSource st n sp str tp =>
    simp only [runConfig, MSXaddSource, findObject_flag]
    split_ifs <;> rfl
  case addQuality ty sp v id =>
    simp only [runConfig, MSXaddQuality, findObject_flag]
    split_ifs <;> rfl
  case addParameter ty p v id =>
    simp only [runConfig, MSXaddParameter, findObject_flag]
    split_ifs <;> rfl
  case addpattern id =>
    simp only [runConfig, MSXaddpattern, findObject_flag, addObject_flag]
    split_ifs <;> rfl
  case setReport rt id p =>
    simp only [runConfig, MSXsetReport, findObject_flag]
    rcases hk : MSXutils_getInt id with _ | kv <;> split_ifs <;> rfl
  case setHydraulics d hh f =>
    simp only [runConfig, MSXsetHydraulics]
    split_ifs <;> rfl
  case setconstant i v =>
    simp only [runConfig, MSXsetconstant]
    split_ifs <;> rfl
  case setparameter t i p v =>
    simp only [runConfig, MSXsetparameter]
    split_ifs <;> rfl
  case setinitqual t i m v =>
    simp only [runConfig, MSXsetinitqual]
    split_ifs <;> rfl
  case setsource n m t l p =>
    simp only [runConfig, MSXsetsource]
    split_ifs <;> rfl
  case setpatternvalue p per v =>
    simp only [runConfig, MSXsetpatternvalue]
    split_ifs <;> rfl
  case setpattern p m =>
    simp only [runConfig, MSXsetpattern]
    split_ifs <;> rfl

set_option maxHeartbeats 2000000 in
theorem runConfig_no_notopened (s : MSXproject) (c : ConfigCall)
    (h1 : s.ProjectOpened = true) (h2 : s.QualityOpened = true) :
    (runConfig s c).1 ≠ ERR_MSX_NOT_OPENED := by
  cases c
  case addNode id =>
    simp only [runConfig, MSXaddNode]
    split_ifs <;>
      first
      | exact checkID_ne _
      | exact absurd (by assumption : s.ProjectOpened = false ∨ s.QualityOpened = false)
          (by simp [h1, h2])
      | exact absurd (by assumption : s.ProjectOpened = false) (by simp [h1])
      | norm_num [ERR_MSX_NOT_OPENED, ERR_INVALID_OBJECT_PARAMS, ERR_INVALID_OBJECT_TYPE,
          ERR_INVALID_OBJECT_INDEX, ERR_KEYWORD, ERR_NUMBER, ERR_NAME, ERR_DUP_EXPR,
          ERR_MATH_EXPR]
  case addTank id v0 mm vm =>
    simp only [runConfig, MSXaddTank]
    split_ifs <;>
      first
      | exact checkID_ne _
      | exact absurd (by assumption : s.ProjectOpened = false ∨ s.QualityOpened = false)
          (by simp [h1, h2])
      | exact absurd (by assumption : s.ProjectOpened = false) (by simp [h1])
      | norm_num [ERR_MSX_NOT_OPENED, ERR_INVALID_OBJECT_PARAMS, ERR_INVALID_OBJECT_TYPE,
          ERR_INVALID_OBJECT_INDEX, ERR_KEYWORD, ERR_NUMBER, ERR_NAME, ERR_DUP_EXPR,
          ERR_MATH_EXPR]
  case addReservoir id v0 mm vm =>
    simp only [runConfig, MSXaddReservoir]
    split_ifs <;>
      first
      | exact checkID_ne _
      | exact absurd (by assumption : s.ProjectOpened = false ∨ s.QualityOpened = false)
          (by simp [h1, h2])
      | exact absurd (by assumption : s.ProjectOpened = false) (by simp [h1])
      | norm_num [ERR_MSX_NOT_OPENED, ERR_INVALID_OBJECT_PARAMS, ERR_INVALID_OBJECT_TYPE,
          ERR_INVALID_OBJECT_INDEX, ERR_KEYWORD, ERR_NUMBER, ERR_NAME, ERR_DUP_EXPR,
          ERR_MATH_EXPR]
  case addLink id sn en l d r =>
    simp only [runConfig, MSXaddLink]
    split_ifs <;>
      first
      | exact checkID_ne _
      | exact absurd (by assumption : s.ProjectOpened = false ∨ s.QualityOpened = false)
          (by simp [h1, h2])
      | exact absurd (by assumption : s.ProjectOpened = false) (by simp [h1])
      | norm_num [ERR_MSX_NOT_OPENED, ERR_INVALID_OBJECT_PARAMS, ERR_INVALID_OBJECT_TYPE,
          ERR_INVALID_OBJECT_INDEX, ERR_KEYWORD, ERR_NUMBER, ERR_NAME, ERR_DUP_EXPR,
          ERR_MATH_EXPR]
  case addOption t v =>
    simp only [runConfig, MSXaddOption]
    by_cases hg : s.ProjectOpened = false ∨ s.QualityOpened = false
    · exact absurd hg (by simp [h1, h2])
    rw [if_neg hg]
    by_cases h0 : t = AREA_UNITS_OPTION
    · rw [if_pos h0]
      split_ifs <;> norm_num [ERR_MSX_NOT_OPENED, ERR_INVALID_OBJECT_PARAMS, ERR_INVALID_OBJECT_TYPE,
          ERR_INVALID_OBJECT_INDEX, ERR_KEYWORD, ERR_NUMBER, ERR_NAME, ERR_DUP_EXPR,
          ERR_MATH_EXPR]
    rw [if_neg h0]
    by_cases hc1 : t = RATE_UNITS_OPTION
    · rw [if_pos hc1]
      split_ifs <;> norm_num [ERR_MSX_NOT_OPENED, ERR_INVALID_OBJECT_PARAMS, ERR_INVALID_OBJECT_TYPE,
          ERR_INVALID_OBJECT_INDEX, ERR_KEYWORD, ERR_NUMBER, ERR_NAME, ERR_DUP_EXPR,
          ERR_MATH_EXPR]
    rw [if_neg hc1]
    by_cases hc2 : t = SOLVER_OPTION
    · rw [if_pos hc2]
      split_ifs <;> norm_num [ERR_MSX_NOT_OPENED, ERR_INVALID_OBJECT_PARAMS, ERR_INVALID_OBJECT_TYPE,
          ERR_INVALID_OBJECT_INDEX, ERR_KEYWORD, ERR_NUMBER, ERR_NAME, ERR_DUP_EXPR,
          ERR_MATH_EXPR]
    rw [if_neg hc2]
    by_cases hc3 : t = COUPLING_OPTION
    · rw [if_pos hc3]
      split_ifs <;> norm_num [ERR_MSX_NOT_OPENED, ERR_INVALID_OBJECT_PARAMS, ERR_INVALID_OBJECT_TYPE,
          ERR_INVALID_OBJECT_INDEX, ERR_KEYWORD, ERR_NUMBER, ERR_NAME, ERR_DUP_EXPR,
          ERR_MATH_EXPR]
    rw [if_neg hc3]
    by_cases hc4 : t = TIMESTEP_OPTION
    · rw [if_pos hc4]
      split_ifs <;> norm_num [ERR_MSX_NOT_OPENED, ERR_INVALID_OBJECT_PARAMS, ERR_INVALID_OBJECT_TYPE,
          ERR_INVALID_OBJECT_INDEX, ERR_KEYWORD, ERR_NUMBER, ERR_NAME, ERR_DUP_EXPR,
          ERR_MATH_EXPR]
    rw [if_neg hc4]
    by_cases hc5 : t = RTOL_OPTION
    · rw [if_pos hc5]
      rcases hd : MSXutils_getDouble v with _ | d <;> norm_num [ERR_MSX_NOT_OPENED, ERR_INVALID_OBJECT_PARAMS, ERR_INVALID_OBJECT_TYPE,
          ERR_INVALID_OBJECT_INDEX, ERR_KEYWORD, ERR_NUMBER, ERR_NAME, ERR_DUP_EXPR,
          ERR_MATH_EXPR]
    rw [if_neg hc5]
    by_cases hc6 : t = ATOL_OPTION
    · rw [if_pos hc6]
      rcases hd : MSXutils_getDouble v with _ | d <;> norm_num [ERR_MSX_NOT_OPENED, ERR_INVALID_OBJECT_PARAMS, ERR_INVALID_OBJECT_TYPE,
          ERR_INVALID_OBJECT_INDEX, ERR_KEYWORD, ERR_NUMBER, ERR_NAME, ERR_DUP_EXPR,
          ERR_MATH_EXPR]
    rw [if_neg hc6]
    split_ifs <;> norm_num [ERR_MSX_NOT_OPENED, ERR_INVALID_OBJECT_PARAMS, ERR_INVALID_OBJECT_TYPE,
          ERR_INVALID_OBJECT_INDEX, ERR_KEYWORD, ERR_NUMBER, ERR_NAME, ERR_DUP_EXPR,
          ERR_MATH_EXPR]
  case addSpecies id ty u a r =>
    simp only [runConfig, MSXaddSpecies]
    rcases hu : speciesUnitsName u with _ | uname <;> split_ifs <;>
      first
      | exact checkID_ne _
      | exact absurd (by assumption : s.ProjectOpened = false ∨ s.QualityOpened = false)
          (by simp [h1, h2])
      | exact absurd (by assumption : s.ProjectOpened = false) (by simp [h1])
      | norm_num [ERR_MSX_NOT_OPENED, ERR_INVALID_OBJECT_PARAMS, ERR_INVALID_OBJECT_TYPE,
          ERR_INVALID_OBJECT_INDEX, ERR_KEYWORD, ERR_NUMBER, ERR_NAME, ERR_DUP_EXPR,
          ERR_MATH_EXPR]
  case addCoefficeint t id v =>
    simp only [runConfig, MSXaddCoefficeint]
    split_ifs <;>
      first
      | exact checkID_ne _
      | exact absurd (by assumption : s.ProjectOpened = false ∨ s.QualityOpened = false)
          (by simp [h1, h2])
      | exact absurd (by assumption : s.ProjectOpened = false) (by simp [h1])
      | norm_num [ERR_MSX_NOT_OPENED, ERR_INVALID_OBJECT_PARAMS, ERR_INVALID_OBJECT_TYPE,
          ERR_INVALID_OBJECT_INDEX, ERR_KEYWORD, ERR_NUMBER, ERR_NAME, ERR_DUP_EXPR,
          ERR_MATH_EXPR]
  case addTerm id eqn =>
    simp only [runConfig, MSXaddTerm]
    rcases hm : mathexpr_create (addTermGrown (addObject s TERM id (s.Nobjects TERM + 1)) id
        (s.Nobjects TERM + 1)) eqn with ⟨e1, s3⟩
    rcases e1 with _ | ex <;> split_ifs <;>
      first
      | exact checkID_ne _
      | exact absurd (by assumption : s.ProjectOpened = false ∨ s.QualityOpened = false)
          (by simp [h1, h2])
      | exact absurd (by assumption : s.ProjectOpened = false) (by simp [h1])
      | norm_num [ERR_MSX_NOT_OPENED, ERR_INVALID_OBJECT_PARAMS, ERR_INVALID_OBJECT_TYPE,
          ERR_INVALID_OBJECT_INDEX, ERR_KEYWORD, ERR_NUMBER, ERR_NAME, ERR_DUP_EXPR,
          ERR_MATH_EXPR]
  case addExpression ct et sp eqn =>
    simp only [runConfig, MSXaddExpression]
    rcases hm : mathexpr_create s eqn with ⟨e1, s3⟩
    rcases e1 with _ | ex <;> split_ifs <;>
      first
      | exact checkID_ne _
      | exact absurd (by assumption : s.ProjectOpened = false ∨ s.QualityOpened = false)
          (by simp [h1, h2])
      | exact absurd (by assumption : s.ProjectOpened = false) (by simp [h1])
      | norm_num [ERR_MSX_NOT_OPENED, ERR_INVALID_OBJECT_PARAMS, ERR_INVALID_OBJECT_TYPE,
          ERR_INVALID_OBJECT_INDEX, ERR_KEYWORD, ERR_NUMBER, ERR_NAME, ERR_DUP_EXPR,
          ERR_MATH_EXPR]
  case addSource st n sp str tp =>
    simp only [runConfig, MSXaddSource]
    split_ifs <;>
      first
      | exact checkID_ne _
      | exact absurd (by assumption : s.ProjectOpened = false ∨ s.QualityOpened = false)
          (by simp [h1, h2])
      | exact absurd (by assumption : s.ProjectOpened = false) (by simp [h1])
      | norm_num [ERR_MSX_NOT_OPENED, ERR_INVALID_OBJECT_PARAMS, ERR_INVALID_OBJECT_TYPE,
          ERR_INVALID_OBJECT_INDEX, ERR_KEYWORD, ERR_NUMBER, ERR_NAME, ERR_DUP_EXPR,
          ERR_MATH_EXPR]
  case addQuality ty sp v id =>
    simp only [runConfig, MSXaddQuality]
    split_ifs <;>
      first
      | exact checkID_ne _
      | exact absurd (by assumption : s.ProjectOpened = false ∨ s.QualityOpened = false)
          (by simp [h1, h2])
      | exact absurd (by assumption : s.ProjectOpened = false) (by simp [h1])
      | norm_num [ERR_MSX_NOT_OPENED, ERR_INVALID_OBJECT_PARAMS, ERR_INVALID_OBJECT_TYPE,
          ERR_INVALID_OBJECT_INDEX, ERR_KEYWORD, ERR_NUMBER, ERR_NAME, ERR_DUP_EXPR,
          ERR_MATH_EXPR]
  case addParameter ty p v id =>
    simp only [runConfig, MSXaddParameter]
    split_ifs <;>
      first
      | exact checkID_ne _
      | exact absurd (by assumption : s.ProjectOpened = false ∨ s.QualityOpened = false)
          (by simp [h1, h2])
      | exact absurd (by assumption : s.ProjectOpened = false) (by simp [h1])
      | norm_num [ERR_MSX_NOT_OPENED, ERR_INVALID_OBJECT_PARAMS, ERR_INVALID_OBJECT_TYPE,
          ERR_INVALID_OBJECT_INDEX, ERR_KEYWORD, ERR_NUMBER, ERR_NAME, ERR_DUP_EXPR,
          ERR_MATH_EXPR]
  case addpattern id =>
    simp only [runConfig, MSXaddpattern]
    split_ifs <;>
      first
      | exact checkID_ne _
      | exact absurd (by assumption : s.ProjectOpened = false ∨ s.QualityOpened = false)
          (by simp [h1, h2])
      | exact absurd (by assumption : s.ProjectOpened = false) (by simp [h1])
      | norm_num [ERR_MSX_NOT_OPENED, ERR_INVALID_OBJECT_PARAMS, ERR_INVALID_OBJECT_TYPE,
          ERR_INVALID_OBJECT_INDEX, ERR_KEYWORD, ERR_NUMBER, ERR_NAME, ERR_DUP_EXPR,
          ERR_MATH_EXPR]
  case setReport rt id p =>
    simp only [runConfig, MSXsetReport]
    rcases hk : MSXutils_getInt id with _ | kv <;> split_ifs <;>
      first
      | exact checkID_ne _
      | exact absurd (by assumption : s.ProjectOpened = false ∨ s.QualityOpened = false)
          (by simp [h1, h2])
      | exact absurd (by assumption : s.ProjectOpened = false) (by simp [h1])
      | norm_num [ERR_MSX_NOT_OPENED, ERR_INVALID_OBJECT_PARAMS, ERR_INVALID_OBJECT_TYPE,
          ERR_INVALID_OBJECT_INDEX, ERR_KEYWORD, ERR_NUMBER, ERR_NAME, ERR_DUP_EXPR,
          ERR_MATH_EXPR]
  case setHydraulics d hh f =>
    simp only [runConfig, MSXsetHydraulics]
    split_ifs <;>
      first
      | exact checkID_ne _
      | exact absurd (by assumption : s.ProjectOpened = false ∨ s.QualityOpened = false)
          (by simp [h1, h2])
      | exact absurd (by assumption : s.ProjectOpened = false) (by simp [h1])
      | norm_num [ERR_MSX_NOT_OPENED, ERR_INVALID_OBJECT_PARAMS, ERR_INVALID_OBJECT_TYPE,
          ERR_INVALID_OBJECT_INDEX, ERR_KEYWORD, ERR_NUMBER, ERR_NAME, ERR_DUP_EXPR,
          ERR_MATH_EXPR]
  case setconstant i v =>
    simp only [runConfig, MSXsetconstant]
    split_ifs <;>
      first
      | exact checkID_ne _
      | exact absurd (by assumption : s.ProjectOpened = false ∨ s.QualityOpened = false)
          (by simp [h1, h2])
      | exact absurd (by assumption : s.ProjectOpened = false) (by simp [h1])
      | norm_num [ERR_MSX_NOT_OPENED, ERR_INVALID_OBJECT_PARAMS, ERR_INVALID_OBJECT_TYPE,
          ERR_INVALID_OBJECT_INDEX, ERR_KEYWORD, ERR_NUMBER, ERR_NAME, ERR_DUP_EXPR,
          ERR_MATH_EXPR]
  case setparameter t i p v =>
    simp only [runConfig, MSXsetparameter]
    split_ifs <;>
      first
      | exact checkID_ne _
      | exact absurd (by assumption : s.ProjectOpened = false ∨ s.QualityOpened = false)
          (by simp [h1, h2])
      | exact absurd (by assumption : s.ProjectOpened = false) (by simp [h1])
      | norm_num [ERR_MSX_NOT_OPENED, ERR_INVALID_OBJECT_PARAMS, ERR_INVALID_OBJECT_TYPE,
          ERR_INVALID_OBJECT_INDEX, ERR_KEYWORD, ERR_NUMBER, ERR_NAME, ERR_DUP_EXPR,
          ERR_MATH_EXPR]
  case setinitqual t i m v =>
    simp only [runConfig, MSXsetinitqual]
    split_ifs <;>
      first
      | exact checkID_ne _
      | exact absurd (by assumption : s.ProjectOpened = false ∨ s.QualityOpened = false)
          (by simp [h1, h2])
      | exact absurd (by assumption : s.ProjectOpened = false) (by simp [h1])
      | norm_num [ERR_MSX_NOT_OPENED, ERR_INVALID_OBJECT_PARAMS, ERR_INVALID_OBJECT_TYPE,
          ERR_INVALID_OBJECT_INDEX, ERR_KEYWORD, ERR_NUMBER, ERR_NAME, ERR_DUP_EXPR,
          ERR_MATH_EXPR]
  case setsource n m t l p =>
    simp only [runConfig, MSXsetsource]
    split_ifs <;>
      first
      | exact checkID_ne _
      | exact absurd (by assumption : s.ProjectOpened = false ∨ s.QualityOpened = false)
          (by simp [h1, h2])
      | exact absurd (by assumption : s.ProjectOpened = false) (by simp [h1])
      | norm_num [ERR_MSX_NOT_OPENED, ERR_INVALID_OBJECT_PARAMS, ERR_INVALID_OBJECT_TYPE,
          ERR_INVALID_OBJECT_INDEX, ERR_KEYWORD, ERR_NUMBER, ERR_NAME, ERR_DUP_EXPR,
          ERR_MATH_EXPR]
  case setpatternvalue p per v =>
    simp only [runConfig, MSXsetpatternvalue]
    split_ifs <;>
      first
      | exact checkID_ne _
      | exact absurd (by assumption : s.ProjectOpened = false ∨ s.QualityOpened = false)
          (by simp [h1, h2])
      | exact absurd (by assumption : s.ProjectOpened = false) (by simp [h1])
      | norm_num [ERR_MSX_NOT_OPENED, ERR_INVALID_OBJECT_PARAMS, ERR_INVALID_OBJECT_TYPE,
          ERR_INVALID_OBJECT_INDEX, ERR_KEYWORD, ERR_NUMBER, ERR_NAME, ERR_DUP_EXPR,
          ERR_MATH_EXPR]
  case setpattern p m =>
    simp only [runConfig, MSXsetpattern]
    split_ifs <;>
      first
      | exact checkID_ne _
      | exact absurd (by assumption : s.ProjectOpened = false ∨ s.QualityOpened = false)
          (by simp [h1, h2])
      | exact absurd (by assumption : s.ProjectOpened = false) (by simp [h1])
      | norm_num [ERR_MSX_NOT_OPENED, ERR_INVALID_OBJECT_PARAMS, ERR_INVALID_OBJECT_TYPE,
          ERR_INVALID_OBJECT_INDEX, ERR_KEYWORD, ERR_NUMBER, ERR_NAME, ERR_DUP_EXPR,
          ERR_MATH_EXPR]

/-! ## Claim theorems -/

theorem MSXaddNode_ok (s : MSXproject) (id : String) (h : (MSXaddNode s id).1 = 0) :
    (MSXaddNode s id).2.Nobjects NODE = s.Nobjects NODE + 1 ∧
    (MSXaddNode s id).2.Nobjects TANK = s.Nobjects TANK ∧
    ((MSXaddNode s id).2.Node (s.Nobjects NODE + 1)).tank = 0 ∧
    (∀ n : Int, 1 ≤ n → n ≤ s.Nobjects NODE → (MSXaddNode s id).2.Node n = s.Node n) ∧
    (MSXaddNode s id).2.Tank = s.Tank := by
  simp only [MSXaddNode] at h ⊢
  split_ifs at h ⊢ with h1 h2 h3
  · simp [ERR_MSX_NOT_OPENED] at h
  · simp [ERR_INVALID_OBJECT_PARAMS] at h
  · exact absurd h h3
  all_goals refine ⟨?_, ?_, ?_, ?_, ?_⟩
  all_goals first
  | (intro n hn1 hn2
     first
     | exact absurd hn2 (by omega)
     | (have hne : ¬(n = s.Nobjects NODE + 1) := by omega
        simp [hne, addObject_Node]
        done))
  | (simp [addObject_Nobjects, NODE, TANK]
     done)
  | (simp [addObject_Tank]
     done)

theorem MSXaddTank_ok (s : MSXproject) (id : String) (v0 : Val) (mm : Int) (vm : Val)
    (h : (MSXaddTank s id v0 mm vm).1 = 0) :
    (MSXaddTank s id v0 mm vm).2.Nobjects NODE = s.Nobjects NODE + 1 ∧
    (MSXaddTank s id v0 mm vm).2.Nobjects TANK = s.Nobjects TANK + 1 ∧
    ((MSXaddTank s id v0 mm vm).2.Tank (s.Nobjects TANK + 1)).node = s.Nobjects NODE + 1 ∧
    ((MSXaddTank s id v0 mm vm).2.Node (s.Nobjects NODE + 1)).tank = s.Nobjects TANK + 1 ∧
    (∀ t : Int, 1 ≤ t → t ≤ s.Nobjects TANK → (MSXaddTank s id v0 mm vm).2.Tank t = s.Tank t) ∧
    (∀ n : Int, 1 ≤ n → n ≤ s.Nobjects NODE →
      (MSXaddTank s id v0 mm vm).2.Node n = s.Node n) := by
  simp only [MSXaddTank] at h ⊢
  split_ifs at h ⊢ with h1 h2 h3
  · simp [ERR_MSX_NOT_OPENED] at h
  · simp [ERR_INVALID_OBJECT_PARAMS] at h
  · exact absurd h h3
  all_goals refine ⟨?_, ?_, ?_, ?_, ?_, ?_⟩
  all_goals first
  | (intro t ht1 ht2
     first
     | exact absurd ht2 (by omega)
     | (have hne : ¬(t = s.Nobjects TANK + 1) := by omega
        simp [hne, addObject_Tank]
        done)
     | (have hne : ¬(t = s.Nobjects NODE + 1) := by omega
        simp [hne, addObject_Node]
        done))
  | (simp [addObject_Nobjects, NODE, TANK]
     done)

theorem MSXaddReservoir_ok (s : MSXproject) (id : String) (v0 : Val) (mm : Int) (vm : Val)
    (h : (MSXaddReservoir s id v0 mm vm).1 = 0) :
    (MSXaddReservoir s id v0 mm vm).2.Nobjects NODE = s.Nobjects NODE + 1 ∧
    (MSXaddReservoir s id v0 mm vm).2.Nobjects TANK = s.Nobjects TANK + 1 ∧
    ((MSXaddReservoir s id v0 mm vm).2.Tank (s.Nobjects TANK + 1)).node
      = s.Nobjects NODE + 1 ∧
    ((MSXaddReservoir s id v0 mm vm).2.Node (s.Nobjects NODE + 1)).tank
      = s.Nobjects TANK + 1 ∧
    (∀ t : Int, 1 ≤ t → t ≤ s.Nobjects TANK →
      (MSXaddReservoir s id v0 mm vm).2.Tank t = s.Tank t) ∧
    (∀ n : Int, 1 ≤ n → n ≤ s.Nobjects NODE →
      (MSXaddReservoir s id v0 mm vm).2.Node n = s.Node n) := by
  simp only [MSXaddReservoir] at h ⊢
  split_ifs at h ⊢ with h1 h2 h3
  · simp [ERR_MSX_NOT_OPENED] at h
  · simp [ERR_INVALID_OBJECT_PARAMS] at h
  · exact absurd h h3
  all_goals refine ⟨?_, ?_, ?_, ?_, ?_, ?_⟩
  all_goals first
  | (intro t ht1 ht2
     first
     | exact absurd ht2 (by omega)
     | (have hne : ¬(t = s.Nobjects TANK + 1) := by omega
        simp [hne, addObject_Tank]
        done)
     | (have hne : ¬(t = s.Nobjects NODE + 1) := by omega
        simp [hne, addObject_Node]
        done))
  | (simp [addObject_Nobjects, NODE, TANK]
     done)


theorem runTopoSeq_inv (ops : List TopoOp) :
    ∀ s0 sf : MSXproject, ∀ created : List Int,
      runTopoSeq s0 ops = some (sf, created) →
      0 ≤ s0.Nobjects NODE → 0 ≤ s0.Nobjects TANK →
      (s0.Nobjects NODE ≤ sf.Nobjects NODE ∧
       s0.Nobjects TANK ≤ sf.Nobjects TANK) ∧
      (∀ n : Int, 1 ≤ n → n ≤ s0.Nobjects NODE → sf.Node n = s0.Node n) ∧
      (∀ t : Int, 1 ≤ t → t ≤ s0.Nobjects TANK → sf.Tank t = s0.Tank t) ∧
      (∀ t : Int, s0.Nobjects TANK + 1 ≤ t → t ≤ sf.Nobjects TANK →
        1 ≤ (sf.Tank t).node ∧ (sf.Tank t).node ≤ sf.Nobjects NODE ∧
        (sf.Node ((sf.Tank t).node)).tank = t) ∧
      (∀ n ∈ created, s0.Nobjects NODE + 1 ≤ n ∧ n ≤ sf.Nobjects NODE ∧
        (sf.Node n).tank = 0) := by
  induction ops with
  | nil =>
    intro s0 sf created hrun _ _
    simp only [runTopoSeq, Option.some.injEq, Prod.mk.injEq] at hrun
    obtain ⟨h1, h2⟩ := hrun
    subst h1
    subst h2
    refine ⟨⟨le_refl _, le_refl _⟩, fun n _ _ => rfl, fun t _ _ => rfl, ?_, ?_⟩
    · intro t ht1 ht2
      exact absurd ht2 (by omega)
    · intro n hn
      simp at hn
  | cons op rest ih =>
    intro s0 sf created hrun h0n h0t
    cases op with
    | node id =>
      simp only [runTopoSeq, runTopoOp] at hrun
      by_cases hz : (MSXaddNode s0 id).1 ≠ 0
      · rw [if_pos hz] at hrun
        exact absurd hrun (by simp)
      rw [if_neg hz] at hrun
      push_neg at hz
      rcases hrest : runTopoSeq (MSXaddNode s0 id).2 rest with _ | ⟨sf1, created1⟩
      · rw [hrest] at hrun
        exact absurd hrun (by simp)
      rw [hrest] at hrun
      simp only [Option.some.injEq, Prod.mk.injEq] at hrun
      obtain ⟨hsf, hcr⟩ := hrun
      subst hsf
      subst hcr
      obtain ⟨hN, hT, htank0, hpresN, hpresT⟩ := MSXaddNode_ok s0 id hz
      obtain ⟨⟨mN, mT⟩, presN1, presT1, newT1, hcr1⟩ :=
        ih (MSXaddNode s0 id).2 sf1 created1 hrest (by omega) (by omega)
      refine ⟨⟨by omega, by omega⟩, ?_, ?_, ?_, ?_⟩
      · intro n hn1 hn2
        rw [presN1 n hn1 (by omega), hpresN n hn1 hn2]
      · intro t ht1 ht2
        rw [presT1 t ht1 (by omega), hpresT]
      · intro t ht1 ht2
        exact newT1 t (by omega) ht2
      · intro n hn
        simp only [List.mem_append, List.mem_singleton] at hn
        rcases hn with hn | hn
        · subst hn
          refine ⟨by omega, by omega, ?_⟩
          rw [presN1 _ (by omega) (by omega), hN]
          exact htank0
        · obtain ⟨hb1, hb2, hb3⟩ := hcr1 n hn
          exact ⟨by omega, hb2, hb3⟩
    | tank id v0 mm vm =>
      simp only [runTopoSeq, runTopoOp] at hrun
      by_cases hz : (MSXaddTank s0 id v0 mm vm).1 ≠ 0
      · rw [if_pos hz] at hrun
        exact absurd hrun (by simp)
      rw [if_neg hz] at hrun
      push_neg at hz
      rcases hrest : runTopoSeq (MSXaddTank s0 id v0 mm vm).2 rest
        with _ | ⟨sf1, created1⟩
      · rw [hrest] at hrun
        exact absurd hrun (by simp)
      rw [hrest] at hrun
      simp only [Option.some.injEq, Prod.mk.injEq] at hrun
      obtain ⟨hsf, hcr⟩ := hrun
      subst hsf
      subst hcr
      obtain ⟨hN, hT, hnode, htank, hpresT, hpresN⟩ := MSXaddTank_ok s0 id v0 mm vm hz
      obtain ⟨⟨mN, mT⟩, presN1, presT1, newT1, hcr1⟩ :=
        ih (MSXaddTank s0 id v0 mm vm).2 sf1 created1 hrest (by omega) (by omega)
      refine ⟨⟨by omega, by omega⟩, ?_, ?_, ?_, ?_⟩
      · intro n hn1 hn2
        rw [presN1 n hn1 (by omega), hpresN n hn1 hn2]
      · intro t ht1 ht2
        rw [presT1 t ht1 (by omega), hpresT t ht1 ht2]
      · intro t ht1 ht2
        by_cases hnew : t ≤ s0.Nobjects TANK + 1
        · have ht' : t = s0.Nobjects TANK + 1 := by omega
          subst ht'
          rw [presT1 _ (by omega) (by omega), hnode]
          refine ⟨by omega, by omega, ?_⟩
          rw [presN1 _ (by omega) (by omega)]
          exact htank
        · exact newT1 t (by omega) ht2
      · intro n hn
        rw [List.nil_append] at hn
        obtain ⟨hb1, hb2, hb3⟩ := hcr1 n hn
        exact ⟨by omega, hb2, hb3⟩
    | reservoir id v0 mm vm =>
      simp only [runTopoSeq, runTopoOp] at hrun
      by_cases hz : (MSXaddReservoir s0 id v0 mm vm).1 ≠ 0
      · rw [if_pos hz] at hrun
        exact absurd hrun (by simp)
      rw [if_neg hz] at hrun
      push_neg at hz
      rcases hrest : runTopoSeq (MSXaddReservoir s0 id v0 mm vm).2 rest
        with _ | ⟨sf1, created1⟩
      · rw [hrest] at hrun
        exact absurd hrun (by simp)
      rw [hrest] at hrun
      simp only [Option.some.injEq, Prod.mk.injEq] at hrun
      obtain ⟨hsf, hcr⟩ := hrun
      subst hsf
      subst hcr
      obtain ⟨hN, hT, hnode, htank, hpresT, hpresN⟩ :=
        MSXaddReservoir_ok s0 id v0 mm vm hz
      obtain ⟨⟨mN, mT⟩, presN1, presT1, newT1, hcr1⟩ :=
        ih (MSXaddReservoir s0 id v0 mm vm).2 sf1 created1 hrest (by omega) (by omega)
      refine ⟨⟨by omega, by omega⟩, ?_, ?_, ?_, ?_⟩
      · intro n hn1 hn2
        rw [presN1 n hn1 (by omega), hpresN n hn1 hn2]
      · intro t ht1 ht2
        rw [presT1 t ht1 (by omega), hpresT t ht1 ht2]
      · intro t ht1 ht2
        by_cases hnew : t ≤ s0.Nobjects TANK + 1
        · have ht' : t = s0.Nobjects TANK + 1 := by omega
          subst ht'
          rw [presT1 _ (by omega) (by omega), hnode]
          refine ⟨by omega, by omega, ?_⟩
          rw [presN1 _ (by omega) (by omega)]
          exact htank
        · exact newT1 t (by omega) ht2
      · intro n hn
        rw [List.nil_append] at hn
        obtain ⟨hb1, hb2, hb3⟩ := hcr1 n hn
        exact ⟨by omega, hb2, hb3⟩

/-- C10: after any sequence of successful `MSXaddNode`, `MSXaddTank` and
`MSXaddReservoir` calls on a freshly initialised project, the node and tank
arrays are mutually consistent — every tank index `t` in `1..Nobjects[TANK]`
has a valid backing node index whose `tank` field points back at `t` — and
every node created by `MSXaddNode` has its `tank` field equal to 0. -/
theorem c10_tank_node_consistency (ops : List TopoOp) (sf : MSXproject)
    (created : List Int)
    (hrun : runTopoSeq initProject ops = some (sf, created)) :
    TankNodeConsistent sf ∧
    ∀ n ∈ created, 1 ≤ n ∧ n ≤ sf.Nobjects NODE ∧ (sf.Node n).tank = 0 := by
  obtain ⟨⟨mN, mT⟩, presN, presT, newT, hcr⟩ :=
    runTopoSeq_inv ops initProject sf created hrun (by decide) (by decide)
  have h0n : initProject.Nobjects NODE = 0 := rfl
  have h0t : initProject.Nobjects TANK = 0 := rfl
  constructor
  · intro t ht1 ht2
    exact newT t (by omega) ht2
  · intro n hn
    obtain ⟨hb1, hb2, hb3⟩ := hcr n hn
    exact ⟨by omega, hb2, hb3⟩

/-- Witness for C10: runs the theorem on the concrete successful sequence
node "A"; tank "T1"; reservoir "R1". -/
theorem c10_tank_node_consistency_witness :
    TankNodeConsistent wTopoRes.1 ∧
    ∀ n ∈ wTopoRes.2, 1 ≤ n ∧ n ≤ wTopoRes.1.Nobjects NODE ∧
      (wTopoRes.1.Node n).tank = 0 :=
  c10_tank_node_consistency
    [TopoOp.node "A", TopoOp.tank "T1" 100 0 50, TopoOp.reservoir "R1" 10 0 5]
    wTopoRes.1 wTopoRes.2 (by rfl)


theorem speciesExprDelete_owned (sp : Sspecies) (e : ℕ)
    (he : e ∈ speciesExprDelete sp) : e ∈ speciesOwnedPtrs sp := by
  rcases hp : sp.pipeExpr with _ | p <;> rcases ht : sp.tankExpr with _ | t
  · simp [speciesExprDelete, exprPtr, mathexprDelete, hp, ht] at he
  · simp [speciesExprDelete, exprPtr, mathexprDelete, hp, ht] at he
    simp [speciesOwnedPtrs, exprPtr, hp, ht, he]
  · simp [speciesExprDelete, exprPtr, mathexprDelete, hp, ht] at he
    simp [speciesOwnedPtrs, exprPtr, hp, ht, he]
  · by_cases hpt : t.ptr = p.ptr
    · simp [speciesExprDelete, exprPtr, mathexprDelete, hp, ht, hpt] at he
      simp [speciesOwnedPtrs, exprPtr, hp, ht, he]
    · simp [speciesExprDelete, exprPtr, mathexprDelete, hp, ht, hpt] at he
      rcases he with he | he <;> simp [speciesOwnedPtrs, exprPtr, hp, ht, he]

theorem speciesExprDelete_count (sp : Sspecies) (e : ℕ)
    (he : e ∈ speciesOwnedPtrs sp) : (speciesExprDelete sp).count e = 1 := by
  rcases hp : sp.pipeExpr with _ | p <;> rcases ht : sp.tankExpr with _ | t
  · simp [speciesOwnedPtrs, exprPtr, hp, ht] at he
  · simp [speciesOwnedPtrs, exprPtr, hp, ht] at he
    subst he
    simp [speciesExprDelete, exprPtr, mathexprDelete, hp, ht]
  · simp [speciesOwnedPtrs, exprPtr, hp, ht] at he
    subst he
    simp [speciesExprDelete, exprPtr, mathexprDelete, hp, ht]
  · simp [speciesOwnedPtrs, exprPtr, hp, ht] at he
    by_cases hpt : t.ptr = p.ptr
    · rcases he with he | he <;> subst he <;>
        simp [speciesExprDelete, exprPtr, mathexprDelete, hp, ht, hpt, List.count_cons]
    · rcases he with he | he <;> subst he <;>
        simp [speciesExprDelete, exprPtr, mathexprDelete, hp, ht, hpt, List.count_cons]

theorem count_flatten_range (N : ℕ) (f : ℕ → List ℕ) (e : ℕ) :
    (((List.range N).map f).flatten).count e
      = ((List.range N).map (fun k => (f k).count e)).sum := by
  induction N with
  | zero => simp
  | succ n ih => simp [List.range_succ, List.count_append, ih]

theorem sum_map_eq_one (N : ℕ) (g : ℕ → ℕ) (k : ℕ) (hk : k < N) (hk1 : g k = 1)
    (hz : ∀ j, j < N → j ≠ k → g j = 0) :
    ((List.range N).map g).sum = 1 := by
  induction N with
  | zero => omega
  | succ n ih =>
    by_cases h : k < n
    · have hn : g n = 0 := hz n (by omega) (by omega)
      have := ih h (fun j hj hjk => hz j (by omega) hjk)
      simp [List.range_succ, hn, this]
    · have hkn : k = n := by omega
      subst hkn
      have hall : ((List.range k).map g).sum = 0 := by
        apply List.sum_eq_zero
        intro x hx
        simp only [List.mem_map, List.mem_range] at hx
        obtain ⟨j, hj, rfl⟩ := hx
        exact hz j (by omega) (by omega)
      simp [List.range_succ, hall, hk1]

/-- C8: (i) whenever a species' tank expression aliases its pipe expression
(pointer equality, including the NULL-NULL case) the species loop of
`deleteObjects` releases only the pipe expression — the shared tree is
released exactly once; (ii) under the ownership discipline that distinct
species own disjoint trees, every expression tree owned by some species is
released exactly once by the whole loop: none is released twice, none is
leaked. -/
theorem c8_expression_release (s : MSXproject) (hdisj : ownershipDisjointB s = true) :
    (∀ sp : Sspecies, exprPtr sp.tankExpr = exprPtr sp.pipeExpr →
       speciesExprDelete sp = mathexprDelete sp.pipeExpr) ∧
    (∀ k, k < (s.Nobjects SPECIES).toNat →
       ∀ e ∈ speciesOwnedPtrs (s.Species (Int.ofNat k + 1)),
         (deleteObjectsSpeciesFrees s).count e = 1) := by
  have hd : ∀ k, k < (s.Nobjects SPECIES).toNat →
      ∀ k2, k2 < (s.Nobjects SPECIES).toNat → k ≠ k2 →
        ∀ e ∈ speciesOwnedPtrs (s.Species (Int.ofNat k + 1)),
          e ∉ speciesOwnedPtrs (s.Species (Int.ofNat k2 + 1)) := by
    intro k hk k2 hk2 hne e he
    simp only [ownershipDisjointB, List.all_eq_true, List.mem_range] at hdisj
    have h1 := hdisj k hk k2 hk2
    simp only [Bool.or_eq_true, beq_iff_eq] at h1
    rcases h1 with h1 | h1
    · exact absurd h1 hne
    · rw [List.all_eq_true] at h1
      have h2 := h1 e he
      simpa using h2
  constructor
  · intro sp hal
    unfold speciesExprDelete
    rw [if_neg (not_not_intro hal)]
    simp
  · intro k hk e he
    unfold deleteObjectsSpeciesFrees
    rw [count_flatten_range]
    refine sum_map_eq_one _ _ k hk (speciesExprDelete_count _ e he) ?_
    intro j hj hjk
    rw [List.count_eq_zero]
    intro hmem
    exact hd j hj k hk hjk e (speciesExprDelete_owned _ e hmem) he

/-- Witness for C8 on a concrete two-species project: species 1's aliased
tree (address 5) and species 2's distinct trees are each released exactly
once. -/
theorem c8_expression_release_witness :
    speciesExprDelete (wSpecExpr.Species 1) = mathexprDelete (wSpecExpr.Species 1).pipeExpr ∧
    (deleteObjectsSpeciesFrees wSpecExpr).count 5 = 1 ∧
    (deleteObjectsSpeciesFrees wSpecExpr).count 7 = 1 :=
  ⟨(c8_expression_release wSpecExpr (by decide)).1 (wSpecExpr.Species 1) (by decide),
   (c8_expression_release wSpecExpr (by decide)).2 0 (by decide) 5 (by decide),
   (c8_expression_release wSpecExpr (by decide)).2 1 (by decide) 7 (by decide)⟩

/-- C4: on an opened project, `addOption(COMPILER, "VC")` — a valid compiler
keyword (`findmatch` yields 1 = VC) — updates the `Compiler` field but
returns `ERR_INVALID_OBJECT_TYPE` instead of the claimed 0, because the
source's `COMPILER_OPTION` switch case is missing its `break` and falls
through into `default`.  This evaluates the embedded code at the failing
input. -/
theorem c4_compiler_option_falls_through :
    MSXutils_findmatch "VC" CompilerWords = 1 ∧
    (MSXaddOption initProject COMPILER_OPTION "VC").1 = ERR_INVALID_OBJECT_TYPE ∧
    (MSXaddOption initProject COMPILER_OPTION "VC").1 ≠ 0 ∧
    (MSXaddOption initProject COMPILER_OPTION "VC").2.Compiler = 1 ∧
    initProject.ProjectOpened = true ∧ initProject.QualityOpened = true := by
  refine ⟨by decide, by decide, by decide, by decide, rfl, rfl⟩

/-- C9: for a valid pattern index, a read (`getpatternvalue`) with
`period > length` succeeds (returns 0) with the output left at its 0.0
default, while a write (`setpatternvalue`) with a period outside
`1..length` is rejected with `ERR_INVALID_OBJECT_PARAMS` and leaves the
project unchanged. -/
theorem c9_pattern_period_read_vs_write (s : MSXproject) (pat period : Int) (value : Val)
    (hop : s.ProjectOpened = true) (h1 : 1 ≤ pat) (h2 : pat ≤ s.Nobjects PATTERN) :
    (period > (s.Pattern pat).length →
      (MSXgetpatternvalue s pat period).1 = 0 ∧
      (MSXgetpatternvalue s pat period).2.1 = 0 ∧
      (MSXgetpatternvalue s pat period).2.2 = s) ∧
    ((period ≤ 0 ∨ period > (s.Pattern pat).length) →
      (MSXsetpatternvalue s pat period value).1 = ERR_INVALID_OBJECT_PARAMS ∧
      (MSXsetpatternvalue s pat period value).2 = s) := by
  have hA : ¬(s.ProjectOpened = false) := by simp [hop]
  have hB : ¬(pat < 1 ∨ pat > s.Nobjects PATTERN) := by omega
  constructor
  · intro hp
    unfold MSXgetpatternvalue
    rw [if_neg hA, if_neg hB, if_neg (by omega : ¬ period ≤ (s.Pattern pat).length)]
    exact ⟨rfl, rfl, rfl⟩
  · intro hp
    unfold MSXsetpatternvalue
    rw [if_neg hA, if_neg hB, if_pos hp]
    exact ⟨rfl, rfl⟩

/-- Witness for C9 at a concrete pattern of length 3 (read at period 4,
write at period 4). -/
theorem c9_pattern_period_read_vs_write_witness :
    ((MSXgetpatternvalue wPat 1 4).1 = 0 ∧
     (MSXgetpatternvalue wPat 1 4).2.1 = 0 ∧
     (MSXgetpatternvalue wPat 1 4).2.2 = wPat) ∧
    ((MSXsetpatternvalue wPat 1 4 3).1 = ERR_INVALID_OBJECT_PARAMS ∧
     (MSXsetpatternvalue wPat 1 4 3).2 = wPat) :=
  ⟨(c9_pattern_period_read_vs_write wPat 1 4 3 (by decide) (by decide) (by decide)).1
      (by decide),
   (c9_pattern_period_read_vs_write wPat 1 4 3 (by decide) (by decide) (by decide)).2
      (by decide)⟩

/-- C7: with the same admissible arguments, `addTank` creates a tank entry
with surface area `a = 1.0` while `addReservoir` creates one with `a = 0.0`;
both record the given initial volume, mixing model and mixing-compartment
volume, and both append a backing node entry (node count bumped, new node
carrying the id and back-pointing at the new tank, tank pointing at the new
node). -/
theorem c7_tank_vs_reservoir (s : MSXproject) (id : String) (v0 : Val) (mm : Int) (vm : Val)
    (hP : s.ProjectOpened = true) (hQ : s.QualityOpened = true)
    (hdup : findObject s TANK id < 1) (hid : checkID id = 0) :
    (MSXaddTank s id v0 mm vm).1 = 0 ∧
    ((MSXaddTank s id v0 mm vm).2.Tank (s.Nobjects TANK + 1)).a = 1 ∧
    ((MSXaddTank s id v0 mm vm).2.Tank (s.Nobjects TANK + 1)).v0 = v0 ∧
    ((MSXaddTank s id v0 mm vm).2.Tank (s.Nobjects TANK + 1)).mixModel = mm ∧
    ((MSXaddTank s id v0 mm vm).2.Tank (s.Nobjects TANK + 1)).vMix = vm ∧
    ((MSXaddTank s id v0 mm vm).2.Tank (s.Nobjects TANK + 1)).node = s.Nobjects NODE + 1 ∧
    (MSXaddTank s id v0 mm vm).2.Nobjects NODE = s.Nobjects NODE + 1 ∧
    (MSXaddTank s id v0 mm vm).2.Nobjects TANK = s.Nobjects TANK + 1 ∧
    ((MSXaddTank s id v0 mm vm).2.Node (s.Nobjects NODE + 1)).id = id ∧
    ((MSXaddTank s id v0 mm vm).2.Node (s.Nobjects NODE + 1)).tank = s.Nobjects TANK + 1 ∧
    (MSXaddReservoir s id v0 mm vm).1 = 0 ∧
    ((MSXaddReservoir s id v0 mm vm).2.Tank (s.Nobjects TANK + 1)).a = 0 ∧
    ((MSXaddReservoir s id v0 mm vm).2.Tank (s.Nobjects TANK + 1)).v0 = v0 ∧
    ((MSXaddReservoir s id v0 mm vm).2.Tank (s.Nobjects TANK + 1)).mixModel = mm ∧
    ((MSXaddReservoir s id v0 mm vm).2.Tank (s.Nobjects TANK + 1)).vMix = vm ∧
    ((MSXaddReservoir s id v0 mm vm).2.Tank (s.Nobjects TANK + 1)).node = s.Nobjects NODE + 1 ∧
    (MSXaddReservoir s id v0 mm vm).2.Nobjects NODE = s.Nobjects NODE + 1 ∧
    (MSXaddReservoir s id v0 mm vm).2.Nobjects TANK = s.Nobjects TANK + 1 ∧
    ((MSXaddReservoir s id v0 mm vm).2.Node (s.Nobjects NODE + 1)).id = id ∧
    ((MSXaddReservoir s id v0 mm vm).2.Node (s.Nobjects NODE + 1)).tank
      = s.Nobjects TANK + 1 := by
  have hA : ¬(s.ProjectOpened = false ∨ s.QualityOpened = false) := by simp [hP, hQ]
  have hB : ¬(1 ≤ findObject s TANK id) := by omega
  have hC : ¬(checkID id ≠ 0) := by simp [hid]
  unfold MSXaddTank MSXaddReservoir
  rw [if_neg hA, if_neg hB, if_neg hC, if_neg hA, if_neg hB, if_neg hC]
  simp only [addObject_Nobjects, addObject_Node, addObject_Tank]
  refine ⟨?_, ?_, ?_, ?_, ?_, ?_, ?_, ?_, ?_, ?_, ?_, ?_, ?_, ?_, ?_, ?_, ?_, ?_, ?_, ?_⟩ <;>
    simp [NODE, TANK]

/-- Witness for C7: a fresh tank "T" and reservoir "T" added to a one-node
project. -/
theorem c7_tank_vs_reservoir_witness :
    (MSXaddTank wNodeA "T" 1000 0 500).1 = 0 ∧
    ((MSXaddTank wNodeA "T" 1000 0 500).2.Tank 1).a = 1 ∧
    ((MSXaddReservoir wNodeA "T" 1000 0 500).2.Tank 1).a = 0 := by
  have h := c7_tank_vs_reservoir wNodeA "T" 1000 0 500 (by rfl) (by rfl)
    (by decide) (by decide)
  obtain ⟨e1, e2, -, -, -, -, -, -, -, -, -, e12, -⟩ := h
  exact ⟨e1, e2, e12⟩

/-- The value located by the multiplier-list walk at period `n + k` starting
the counter at `n` is the k-th list element. -/
theorem patFind_found (l : List Val) (n : Int) (k : ℕ) (hk : k < l.length) :
    patFind l n (n + (k : Int)) = some (k, l.get ⟨k, hk⟩) := by
  induction l generalizing n k with
  | nil => simp at hk
  | cons v rest ih =>
    cases k with
    | zero =>
      unfold patFind
      rw [if_pos (by omega)]
      rfl
    | succ k2 =>
      unfold patFind
      rw [if_neg (by omega)]
      have h2 : (n + 1) + (k2 : Int) = n + ((k2 : ℕ) + 1 : ℕ) := by push_cast; ring
      rw [← h2, ih (n + 1) k2 (by simpa using hk)]
      rfl

/-- A successful multiplier read: when the project is open, the index valid,
the period within the length, and the walk finds a cell, `getpatternvalue`
returns 0 and outputs that cell's value. -/
theorem getpatternvalue_ok (s : MSXproject) (pat period : Int)
    (hop : s.ProjectOpened = true) (hB : ¬(pat < 1 ∨ pat > s.Nobjects PATTERN))
    (hlen : period ≤ (s.Pattern pat).length) (k : ℕ) (v : Val)
    (hfind : patFind (s.Pattern pat).first 1 period = some (k, v)) :
    (MSXgetpatternvalue s pat period).1 = 0 ∧ (MSXgetpatternvalue s pat period).2.1 = v := by
  unfold MSXgetpatternvalue
  rw [if_neg (by simp [hop]), if_neg hB, if_pos hlen, hfind]
  exact ⟨rfl, rfl⟩

/-- C3: after a successful `setPattern(p, m)` on a valid pattern index, the
pattern's length equals `m.length`, and for every position `i` a subsequent
`getPatternValue(p, i+1)` returns 0 and outputs exactly `m[i]`. -/
theorem c3_pattern_roundtrip (s : MSXproject) (pat : Int) (m : List Val)
    (hop : s.ProjectOpened = true) (h1 : 1 ≤ pat) (h2 : pat ≤ s.Nobjects PATTERN) :
    (MSXsetpattern s pat m).1 = 0 ∧
    ((MSXsetpattern s pat m).2.Pattern pat).length = (m.length : Int) ∧
    ∀ i : ℕ, (hi : i < m.length) →
      (MSXgetpatternvalue (MSXsetpattern s pat m).2 pat ((i : Int) + 1)).1 = 0 ∧
      (MSXgetpatternvalue (MSXsetpattern s pat m).2 pat ((i : Int) + 1)).2.1
        = m.get ⟨i, hi⟩ := by
  have hA : ¬(s.ProjectOpened = false) := by simp [hop]
  have hB : ¬(pat < 1 ∨ pat > s.Nobjects PATTERN) := by omega
  have hres : MSXsetpattern s pat m =
      (0, { s with
            Pattern := fun k => if k = pat then
                         { s.Pattern pat with
                           first := m
                           length := (m.length : Int)
                           interval := 0
                           current := if m.isEmpty then none else some 0 }
                       else s.Pattern k }) := by
    unfold MSXsetpattern
    rw [if_neg hA, if_neg hB]
  rw [hres]
  refine ⟨rfl, by simp, ?_⟩
  intro i hi
  refine getpatternvalue_ok _ _ _ ?_ ?_ ?_ i (m.get ⟨i, hi⟩) ?_
  · exact hop
  · exact hB
  · have h3 : ((i : Int) + 1) ≤ ((m.length : Int)) := by omega
    simpa using h3
  · have h0 := patFind_found m 1 i hi
    rw [show (1 : Int) + (i : Int) = (i : Int) + 1 from by ring] at h0
    simpa using h0

/-- Witness for C3 at the concrete pattern [5,7,9] (read back at i = 1). -/
theorem c3_pattern_roundtrip_witness :
    (MSXsetpattern wPat0 1 [5, 7, 9]).1 = 0 ∧
    ((MSXsetpattern wPat0 1 [5, 7, 9]).2.Pattern 1).length = 3 ∧
    (MSXgetpatternvalue (MSXsetpattern wPat0 1 [5, 7, 9]).2 1 2).1 = 0 ∧
    (MSXgetpatternvalue (MSXsetpattern wPat0 1 [5, 7, 9]).2 1 2).2.1 = 7 := by
  have h := c3_pattern_roundtrip wPat0 1 [5, 7, 9] (by rfl) (by decide) (by decide)
  have h1 := h.2.2 1 (by decide)
  exact ⟨h.1, h.2.1, h1.1, h1.2⟩

/-- C5: on an opened project, each 1-based-index getter returns
`ERR_INVALID_OBJECT_INDEX` exactly when one of its object-index arguments
lies outside `1..Nobjects[type]` (so index 0 is always rejected), and
whenever it returns any error the output is still its pre-set default, so no
object slot (in particular never slot 0) has been read. -/
theorem c5_getter_index_validation (s : MSXproject) (c : GetterCall)
    (hop : s.ProjectOpened = true) (hvt : getterValidType c) :
    (runGetterErr s c = ERR_INVALID_OBJECT_INDEX ↔ getterIdxOut s c) ∧
    (runGetterErr s c ≠ 0 → getterDefaultOut s c) := by
  cases c <;>
    simp only [runGetterErr, getterValidType, getterIdxOut, getterDefaultOut,
      MSXgetIDlen, MSXgetID, MSXgetconstant, MSXgetparameter, MSXgetinitqual,
      MSXgetQualityByIndex, MSXgetpatternlen, hop] at hvt ⊢ <;>
    split_ifs <;>
    simp_all [ERR_INVALID_OBJECT_INDEX, ERR_INVALID_OBJECT_TYPE, ERR_MSX_NOT_OPENED]

/-- Witness for C5: `getconstant` with index 0 on a one-constant project is
rejected with `ERR_INVALID_OBJECT_INDEX`, and leaves the 0 default output. -/
theorem c5_getter_index_validation_witness :
    runGetterErr wConst (GetterCall.getconst 0) = ERR_INVALID_OBJECT_INDEX ∧
    (MSXgetconstant wConst 0).2 = 0 :=
  ⟨(c5_getter_index_validation wConst (GetterCall.getconst 0) (by rfl) trivial).1.mpr
     (Or.inl (by decide)),
   (c5_getter_index_validation wConst (GetterCall.getconst 0) (by rfl) trivial).2
     (by decide)⟩

/-- C1 counterexample: on an open project holding node "A" (and no object
named "L"), `addLink("L", "A", "B", ...)` fails with the nonzero `ERR_NAME`
(endpoint "B" does not exist) yet leaves the id "L" registered in the LINK
name lookup table — partial state retained across a failed `add*` call. -/
theorem c1_counterexample_addLink_registers_id :
    wNodeA.Htable LINK "L" < 1 ∧
    (MSXaddLink wNodeA "L" "A" "B" 100 12 100).1 = ERR_NAME ∧
    (MSXaddLink wNodeA "L" "A" "B" 100 12 100).1 ≠ 0 ∧
    (MSXaddLink wNodeA "L" "A" "B" 100 12 100).2.Htable LINK "L" = 1 := by
  exact ⟨by decide, by decide, by decide, by decide⟩

set_option maxHeartbeats 2000000 in
/-- C1 (amended): an object-creating `add*` call that returns a nonzero
error leaves the project unchanged, except that (a) `addLink`'s endpoint
validation runs after the id is registered, so its Name error may leave the
hash table (and nothing else) changed; (b) `addSpecies` validates its units
keyword after registering the id, growing the species array (writing the new
slot's id and kind) and zeroing `C0`, so its Keyword error may leave those
three components (and nothing else, in particular no count) changed; and
(c) `addTerm` compiles its equation only after registering the id, appending
the term and incrementing `Nobjects[TERM]`, so its MathExpr error may leave
the hash table, the term array, and the TERM count (no other count)
changed. -/
theorem c1_amended_no_partial_state (s : MSXproject) (c : ConfigCall)
    (hadd : isObjectAdd c = true) (herr : (runConfig s c).1 ≠ 0) :
    (runConfig s c).2 = s ∨
    (match c with
     | .addLink _ _ _ _ _ _ =>
         (runConfig s c).2 = { s with Htable := (runConfig s c).2.Htable }
     | .addSpecies _ _ _ _ _ =>
         (runConfig s c).2 = { s with
                               Htable := (runConfig s c).2.Htable
                               Species := (runConfig s c).2.Species
                               C0 := (runConfig s c).2.C0 }
     | .addTerm _ _ =>
         (runConfig s c).2 = { s with
                               Htable := (runConfig s c).2.Htable
                               Term := (runConfig s c).2.Term
                               Nobjects := (runConfig s c).2.Nobjects } ∧
         ∀ t : Int, t ≠ TERM → (runConfig s c).2.Nobjects t = s.Nobjects t
     | _ => False) := by
  cases c
  case addNode id =>
    refine Or.inl ?_
    replace herr : (MSXaddNode s id).1 ≠ 0 := herr
    show (MSXaddNode s id).2 = s
    simp only [MSXaddNode] at herr ⊢
    split_ifs at herr ⊢ <;> first | exact absurd rfl herr | rfl
  case addTank id v0 mm vm =>
    refine Or.inl ?_
    replace herr : (MSXaddTank s id v0 mm vm).1 ≠ 0 := herr
    show (MSXaddTank s id v0 mm vm).2 = s
    simp only [MSXaddTank] at herr ⊢
    split_ifs at herr ⊢ <;> first | exact absurd rfl herr | rfl
  case addReservoir id v0 mm vm =>
    refine Or.inl ?_
    replace herr : (MSXaddReservoir s id v0 mm vm).1 ≠ 0 := herr
    show (MSXaddReservoir s id v0 mm vm).2 = s
    simp only [MSXaddReservoir] at herr ⊢
    split_ifs at herr ⊢ <;> first | exact absurd rfl herr | rfl
  case addLink id sn en l d r =>
    refine Or.inr ?_
    replace herr : (MSXaddLink s id sn en l d r).1 ≠ 0 := herr
    show (MSXaddLink s id sn en l d r).2 =
      { s with Htable := (MSXaddLink s id sn en l d r).2.Htable }
    simp only [MSXaddLink] at herr ⊢
    rw [addObject_eq_htable_update] at herr ⊢
    split_ifs at herr ⊢ <;> first | exact absurd rfl herr | rfl
  case addOption t v => simp [isObjectAdd] at hadd
  case addSpecies id ty u a r =>
    refine Or.inr ?_
    replace herr : (MSXaddSpecies s id ty u a r).1 ≠ 0 := herr
    show (MSXaddSpecies s id ty u a r).2 =
      { s with
        Htable := (MSXaddSpecies s id ty u a r).2.Htable
        Species := (MSXaddSpecies s id ty u a r).2.Species
        C0 := (MSXaddSpecies s id ty u a r).2.C0 }
    simp only [MSXaddSpecies, speciesUnitsName] at herr ⊢
    rw [addObject_eq_htable_update] at herr ⊢
    split_ifs at herr ⊢ <;> first | exact absurd rfl herr | rfl
  case addCoefficeint t id v =>
    refine Or.inl ?_
    replace herr : (MSXaddCoefficeint s t id v).1 ≠ 0 := herr
    show (MSXaddCoefficeint s t id v).2 = s
    simp only [MSXaddCoefficeint] at herr ⊢
    split_ifs at herr ⊢ <;> first | exact absurd rfl herr | rfl
  case addTerm id eq =>
    refine Or.inr ?_
    replace herr : (MSXaddTerm s id eq).1 ≠ 0 := herr
    show (MSXaddTerm s id eq).2 =
        { s with
          Htable := (MSXaddTerm s id eq).2.Htable
          Term := (MSXaddTerm s id eq).2.Term
          Nobjects := (MSXaddTerm s id eq).2.Nobjects } ∧
      ∀ t : Int, t ≠ TERM → (MSXaddTerm s id eq).2.Nobjects t = s.Nobjects t
    simp only [MSXaddTerm, mathexpr_create] at herr ⊢
    rw [addObject_eq_htable_update] at herr ⊢
    split_ifs at herr ⊢ <;>
      first
      | exact absurd rfl herr
      | exact ⟨rfl, fun t ht => by simp [addTermGrown, ht]⟩
  case addExpression ct et sp eq =>
    refine Or.inl ?_
    replace herr : (MSXaddExpression s ct et sp eq).1 ≠ 0 := herr
    show (MSXaddExpression s ct et sp eq).2 = s
    simp only [MSXaddExpression, mathexpr_create] at herr ⊢
    split_ifs at herr ⊢ <;> first | exact absurd rfl herr | rfl
  case addSource st n sp str tp =>
    refine Or.inl ?_
    replace herr : (MSXaddSource s st n sp str tp).1 ≠ 0 := herr
    show (MSXaddSource s st n sp str tp).2 = s
    simp only [MSXaddSource] at herr ⊢
    split_ifs at herr ⊢ <;> first | exact absurd rfl herr | rfl
  case addQuality ty sp v id =>
    refine Or.inl ?_
    replace herr : (MSXaddQuality s ty sp v id).1 ≠ 0 := herr
    show (MSXaddQuality s ty sp v id).2 = s
    simp only [MSXaddQuality] at herr ⊢
    split_ifs at herr ⊢ <;> first | exact absurd rfl herr | rfl
  case addParameter ty p v id =>
    refine Or.inl ?_
    replace herr : (MSXaddParameter s ty p v id).1 ≠ 0 := herr
    show (MSXaddParameter s ty p v id).2 = s
    simp only [MSXaddParameter] at herr ⊢
    split_ifs at herr ⊢ <;> first | exact absurd rfl herr | rfl
  case addpattern id =>
    refine Or.inl ?_
    replace herr : (MSXaddpattern s id).1 ≠ 0 := herr
    show (MSXaddpattern s id).2 = s
    simp only [MSXaddpattern] at herr ⊢
    split_ifs at herr ⊢ <;> first | exact absurd rfl herr | rfl
  all_goals simp [isObjectAdd] at hadd

/-- Witness for C1 (amended): a failed `addNode` on an unopened project
leaves the project exactly unchanged. -/
theorem c1_amended_no_partial_state_witness :
    (runConfig wClosed (ConfigCall.addNode "A")).2 = wClosed ∨ False :=
  c1_amended_no_partial_state wClosed (ConfigCall.addNode "A") rfl (by decide)

/-- C2 counterexample, both divergences at concrete inputs: (a) `addSpecies`
validates its species kind *before* the lifecycle guard, so on a project that
has never been opened it returns `ERR_KEYWORD` (not the claimed NotOpened
error) with the state unchanged; and (b) in an Initialized-state project
(`ProjectOpened`, `QualityOpened` and the initialized flag all set — outside
the Open/QualityOpen states of the spec lifecycle) `setconstant` is not
rejected with NotOpened but succeeds (returns 0) and mutates the constant
mid-simulation. -/
theorem c2_counterexample_addSpecies_keyword :
    wClosed.ProjectOpened = false ∧
    (runConfig wClosed (ConfigCall.addSpecies "S" 7 0 1 1)).1 = ERR_KEYWORD ∧
    ERR_KEYWORD ≠ ERR_MSX_NOT_OPENED ∧
    (runConfig wClosed (ConfigCall.addSpecies "S" 7 0 1 1)).2 = wClosed ∧
    ({ wConst with SimInited := true }).ProjectOpened = true ∧
    ({ wConst with SimInited := true }).QualityOpened = true ∧
    ({ wConst with SimInited := true }).SimInited = true ∧
    ((wConst.Const 1).value = 42 ∧
     (runConfig { wConst with SimInited := true } (ConfigCall.setconstant 1 99)).1 = 0 ∧
     ((runConfig { wConst with SimInited := true } (ConfigCall.setconstant 1 99)).2.Const
        1).value = 99) :=
  ⟨rfl, by decide, by decide, rfl, rfl, rfl, rfl, by decide, by decide, by decide⟩

/-- C2 (amended): (i) every configuration call (`add*`/`set*`) invoked on a
project that has not been opened returns the NotOpened error — except
`addSpecies` with an invalid species kind, which returns the Keyword error
because the kind check precedes the lifecycle guard — and in every case
leaves the project unchanged; (ii) the lifecycle guards consult only the
`ProjectOpened`/`QualityOpened` flags, never the initialized flag, so
whenever both flags are set — which includes the Initialized and Stepping
states — no configuration call is rejected with NotOpened; (iii) toggling
the initialized flag changes neither the return code nor the state effect of
any configuration call, so the Initialized/Stepping states accept and apply
configuration calls exactly as the QualityOpen state does (contrary to the
spec lifecycle, which places those states outside Open/QualityOpen); and
(iv) `step` invoked before the quality simulation has been initialised is
rejected with a nonzero error. -/
theorem c2_amended_config_guard :
    (∀ (s : MSXproject) (c : ConfigCall), s.ProjectOpened = false →
       runConfig s c = (guardErr c, s)) ∧
    (∀ (s : MSXproject) (c : ConfigCall), s.ProjectOpened = true →
       s.QualityOpened = true → (runConfig s c).1 ≠ ERR_MSX_NOT_OPENED) ∧
    (∀ (s : MSXproject) (b : Bool) (c : ConfigCall),
       runConfig { s with SimInited := b } c
         = ((runConfig s c).1, { (runConfig s c).2 with SimInited := b })) ∧
    (∀ s : MSXproject, s.SimInited = false → (MSXstep s).1 ≠ 0) := by
  refine ⟨?_, fun s c h1 h2 => runConfig_no_notopened s c h1 h2,
    fun s b c => runConfig_flag s b c, ?_⟩
  · intro s c h
    cases c
    case addNode id =>
      show MSXaddNode s id = ((ERR_MSX_NOT_OPENED : Int), s)
      unfold MSXaddNode; rw [if_pos (Or.inl h)]
    case addTank id v0 mm vm =>
      show MSXaddTank s id v0 mm vm = ((ERR_MSX_NOT_OPENED : Int), s)
      unfold MSXaddTank; rw [if_pos (Or.inl h)]
    case addReservoir id v0 mm vm =>
      show MSXaddReservoir s id v0 mm vm = ((ERR_MSX_NOT_OPENED : Int), s)
      unfold MSXaddReservoir; rw [if_pos (Or.inl h)]
    case addLink id sn en l d r =>
      show MSXaddLink s id sn en l d r = ((ERR_MSX_NOT_OPENED : Int), s)
      unfold MSXaddLink; rw [if_pos (Or.inl h)]
    case addOption t v =>
      show MSXaddOption s t v = ((ERR_MSX_NOT_OPENED : Int), s)
      unfold MSXaddOption; rw [if_pos (Or.inl h)]
    case addSpecies id ty u a r =>
      by_cases hty : ty = BULK ∨ ty = WALL
      · show MSXaddSpecies s id ty u a r =
          ((if ¬(ty = BULK ∨ ty = WALL) then ERR_KEYWORD else ERR_MSX_NOT_OPENED : Int), s)
        unfold MSXaddSpecies
        rw [if_neg (not_not_intro hty), if_pos (Or.inl h), if_neg (not_not_intro hty)]
      · show MSXaddSpecies s id ty u a r =
          ((if ¬(ty = BULK ∨ ty = WALL) then ERR_KEYWORD else ERR_MSX_NOT_OPENED : Int), s)
        unfold MSXaddSpecies
        rw [if_pos hty, if_pos hty]
    case addCoefficeint t id v =>
      show MSXaddCoefficeint s t id v = ((ERR_MSX_NOT_OPENED : Int), s)
      unfold MSXaddCoefficeint; rw [if_pos (Or.inl h)]
    case addTerm id eq =>
      show MSXaddTerm s id eq = ((ERR_MSX_NOT_OPENED : Int), s)
      unfold MSXaddTerm; rw [if_pos (Or.inl h)]
    case addExpression ct et sp eq =>
      show MSXaddExpression s ct et sp eq = ((ERR_MSX_NOT_OPENED : Int), s)
      unfold MSXaddExpression; rw [if_pos (Or.inl h)]
    case addSource st n sp str tp =>
      show MSXaddSource s st n sp str tp = ((ERR_MSX_NOT_OPENED : Int), s)
      unfold MSXaddSource; rw [if_pos (Or.inl h)]
    case addQuality ty sp v id =>
      show MSXaddQuality s ty sp v id = ((ERR_MSX_NOT_OPENED : Int), s)
      unfold MSXaddQuality; rw [if_pos (Or.inl h)]
    case addParameter ty p v id =>
      show MSXaddParameter s ty p v id = ((ERR_MSX_NOT_OPENED : Int), s)
      unfold MSXaddParameter; rw [if_pos (Or.inl h)]
    case addpattern id =>
      show MSXaddpattern s id = ((ERR_MSX_NOT_OPENED : Int), s)
      unfold MSXaddpattern; rw [if_pos h]
    case setReport rt id p =>
      show MSXsetReport s rt id p = ((ERR_MSX_NOT_OPENED : Int), s)
      unfold MSXsetReport; rw [if_pos (Or.inl h)]
    case setHydraulics d hh f =>
      show MSXsetHydraulics s d hh f = ((ERR_MSX_NOT_OPENED : Int), s)
      unfold MSXsetHydraulics; rw [if_pos (Or.inl h)]
    case setconstant i v =>
      show MSXsetconstant s i v = ((ERR_MSX_NOT_OPENED : Int), s)
      unfold MSXsetconstant; rw [if_pos h]
    case setparameter t i p v =>
      show MSXsetparameter s t i p v = ((ERR_MSX_NOT_OPENED : Int), s)
      unfold MSXsetparameter; rw [if_pos h]
    case setinitqual t i m v =>
      show MSXsetinitqual s t i m v = ((ERR_MSX_NOT_OPENED : Int), s)
      unfold MSXsetinitqual; rw [if_pos h]
    case setsource n m t l p =>
      show MSXsetsource s n m t l p = ((ERR_MSX_NOT_OPENED : Int), s)
      unfold MSXsetsource; rw [if_pos h]
    case setpatternvalue p per v =>
      show MSXsetpatternvalue s p per v = ((ERR_MSX_NOT_OPENED : Int), s)
      unfold MSXsetpatternvalue; rw [if_pos h]
    case setpattern p m =>
      show MSXsetpattern s p m = ((ERR_MSX_NOT_OPENED : Int), s)
      unfold MSXsetpattern; rw [if_pos h]
  · intro s h
    unfold MSXstep MSXqual_step
    by_cases hp : s.ProjectOpened = false
    · rw [if_pos hp]; simp [ERR_MSX_NOT_OPENED]
    · rw [if_neg hp, if_pos h]; simp [ERR_MSX_NOT_OPENED]

/-- Witness for C2 (amended): `setconstant` on a never-opened project is
rejected with NotOpened and changes nothing; on the freshly opened project it
is not rejected with NotOpened; its behaviour is unchanged by setting the
initialized flag; and `step` on an open but uninitialised project is rejected
with a nonzero error. -/
theorem c2_amended_config_guard_witness :
    runConfig wClosed (ConfigCall.setconstant 1 5) = (ERR_MSX_NOT_OPENED, wClosed) ∧
    (runConfig initProject (ConfigCall.setconstant 1 5)).1 ≠ ERR_MSX_NOT_OPENED ∧
    runConfig { initProject with SimInited := true } (ConfigCall.setconstant 1 5)
      = ((runConfig initProject (ConfigCall.setconstant 1 5)).1,
         { (runConfig initProject (ConfigCall.setconstant 1 5)).2 with SimInited := true }) ∧
    (MSXstep initProject).1 ≠ 0 :=
  ⟨c2_amended_config_guard.1 wClosed (ConfigCall.setconstant 1 5) rfl,
   c2_amended_config_guard.2.1 initProject (ConfigCall.setconstant 1 5) rfl rfl,
   c2_amended_config_guard.2.2.1 initProject true (ConfigCall.setconstant 1 5),
   c2_amended_config_guard.2.2.2 initProject rfl⟩

/-- C6: on an opened project `setHydraulics` returns 0, copies the 0-based
demand/head arrays into internal 1-based slots `D[i+1]`/`H[i+1]` for each
node position `i < Nnodes`, copies the flow array into `Q[j+1]` for each
link position `j < Nlinks`, leaves the out-of-range slots of `D`,`H`,`Q`
alone, and changes no other project state. -/
theorem c6_setHydraulics_copies (s : MSXproject) (demands heads flows : Int → Val)
    (hP : s.ProjectOpened = true) (hQ : s.QualityOpened = true) :
    (MSXsetHydraulics s demands heads flows).1 = 0 ∧
    (MSXsetHydraulics s demands heads flows).2 =
      { s with
        D := (MSXsetHydraulics s demands heads flows).2.D
        H := (MSXsetHydraulics s demands heads flows).2.H
        Q := (MSXsetHydraulics s demands heads flows).2.Q } ∧
    (∀ i : Int, 0 ≤ i → i < s.Nobjects NODE →
      (MSXsetHydraulics s demands heads flows).2.D (i + 1) = demands i ∧
      (MSXsetHydraulics s demands heads flows).2.H (i + 1) = heads i) ∧
    (∀ j : Int, 0 ≤ j → j < s.Nobjects LINK →
      (MSXsetHydraulics s demands heads flows).2.Q (j + 1) = flows j) ∧
    (∀ i : Int, ¬(1 ≤ i ∧ i ≤ s.Nobjects NODE) →
      (MSXsetHydraulics s demands heads flows).2.D i = s.D i ∧
      (MSXsetHydraulics s demands heads flows).2.H i = s.H i) ∧
    (∀ j : Int, ¬(1 ≤ j ∧ j ≤ s.Nobjects LINK) →
      (MSXsetHydraulics s demands heads flows).2.Q j = s.Q j) := by
  have hA : ¬(s.ProjectOpened = false ∨ s.QualityOpened = false) := by simp [hP, hQ]
  unfold MSXsetHydraulics
  rw [if_neg hA]
  refine ⟨rfl, rfl, ?_, ?_, ?_, ?_⟩
  · intro i h0 hN
    constructor <;>
      · show (if 1 ≤ i + 1 ∧ i + 1 ≤ s.Nobjects NODE then _ else _) = _
        rw [if_pos (by omega : 1 ≤ i + 1 ∧ i + 1 ≤ s.Nobjects NODE)]
        norm_num
  · intro j h0 hL
    show (if 1 ≤ j + 1 ∧ j + 1 ≤ s.Nobjects LINK then _ else _) = _
    rw [if_pos (by omega : 1 ≤ j + 1 ∧ j + 1 ≤ s.Nobjects LINK)]
    norm_num
  · intro i hi
    constructor <;>
      · show (if 1 ≤ i ∧ i ≤ s.Nobjects NODE then _ else _) = _
        rw [if_neg hi]
  · intro j hj
    show (if 1 ≤ j ∧ j ≤ s.Nobjects LINK then _ else _) = _
    rw [if_neg hj]

/-- Witness for C6 on a 2-node, 1-link project with concrete input arrays. -/
theorem c6_setHydraulics_copies_witness :
    (MSXsetHydraulics wNet (fun i => i + 10) (fun i => i + 20) (fun i => i + 30)).1 = 0 ∧
    (MSXsetHydraulics wNet (fun i => i + 10) (fun i => i + 20) (fun i => i + 30)).2.D 1 = 10 ∧
    (MSXsetHydraulics wNet (fun i => i + 10) (fun i => i + 20) (fun i => i + 30)).2.Q 1 = 30 :=
  ⟨(c6_setHydraulics_copies wNet _ _ _ (by rfl) (by rfl)).1,
   by
    have h := (c6_setHydraulics_copies wNet (fun i => i + 10) (fun i => i + 20)
        (fun i => i + 30) (by rfl) (by rfl)).2.2.1 0 (by decide) (by decide)
    simpa using h.1,
   by
    have h := (c6_setHydraulics_copies wNet (fun i => i + 10) (fun i => i + 20)
        (fun i => i + 30) (by rfl) (by rfl)).2.2.2.1 0 (by decide) (by decide)
    simpa using h⟩

end EpanetMSX
